import Mathlib

/-!
Shallow embedding of the canonical tactical engine of the `chimera`
repository (the third, most complete variant in `docs/site/src/sim.js`,
lines 1268 onward): stat/cost tables, grid geometry, line of sight and
cover, the combat resolvers, the round/initiative flow and the random
warband generator.  JavaScript numbers are modelled as `Int`, JS objects
as structures, `undefined`-able values as `Option`, and the global
`Math.random` source as an explicit stream of naturals (`List Nat`)
threaded through every function: each primitive draw consumes one
element of the stream.  The append-only text log is not modelled.
-/

namespace Chimera

/-- Teams, `TEAM_BLUE` / `TEAM_RED` in the source. -/
inductive Team where
  | blue
  | red
deriving DecidableEq

def TEAM_BLUE : Team := Team.blue

def TEAM_RED : Team := Team.red

def GRID_W : Int := 22

def GRID_H : Int := 14

def TILE_EMPTY : Nat := 0

def TILE_HEAVY : Nat := 1

def TILE_BLOCK : Nat := 2

def ACTIONS_PER_ACTIVATION : Int := 3

def MOVE_PER_ACTION : Int := 2

def MAX_HORROR : Int := 5

/-- One `{ mod, cost }` entry of a stat table. -/
structure StatEntry where
  m : Int
  cost : Int
deriving DecidableEq

/-- `DEF_WILL_TABLE` (sim.js line 1283): object keyed by tier; a key
miss is `none` (JS `undefined`). -/
def DEF_WILL_TABLE (t : Int) : Option StatEntry :=
  if t = 0 then some ⟨-2, 0⟩
  else if t = 1 then some ⟨0, 2⟩
  else if t = 2 then some ⟨2, 4⟩
  else if t = 3 then some ⟨4, 8⟩
  else none

/-- `SHOOT_FIGHT_TABLE` (sim.js line 1290). -/
def SHOOT_FIGHT_TABLE (t : Int) : Option StatEntry :=
  if t = 0 then some ⟨-2, 0⟩
  else if t = 1 then some ⟨-2, 0⟩
  else if t = 2 then some ⟨2, 3⟩
  else if t = 3 then some ⟨4, 6⟩
  else none

/-- `SAVE_TARGET_BY_WILL` (sim.js line 1297). -/
def SAVE_TARGET_BY_WILL (t : Int) : Option Int :=
  if t = 0 then some 14
  else if t = 1 then some 14
  else if t = 2 then some 13
  else if t = 3 then some 11
  else none

/-- `TBL[tier] ?? TBL[1]`: the argument is `Option Int` because in JS the
tier may itself be `undefined`. -/
def tableLookup (tbl : Int → Option StatEntry) (tier : Option Int) : StatEntry :=
  (tier.bind tbl).getD ((tbl 1).getD ⟨0, 0⟩)

def defenseMod (tier : Option Int) : Int := (tableLookup DEF_WILL_TABLE tier).m

def willMod (tier : Option Int) : Int := (tableLookup DEF_WILL_TABLE tier).m

def shootMod (tier : Option Int) : Int := (tableLookup SHOOT_FIGHT_TABLE tier).m

def fightMod (tier : Option Int) : Int := (tableLookup SHOOT_FIGHT_TABLE tier).m

def clamp (n lo hi : Int) : Int := max lo (min hi n)

/-- Lower-case a string, modelling JS `toLowerCase` on the ASCII names
used by the rule tables. -/
def strLower (s : String) : String := String.mk (s.data.map Char.toLower)

/-- Whether the first character list starts the second. -/
def leadsWith : List Char → List Char → Bool
  | [], _ => true
  | _ :: _, [] => false
  | p :: ps, c :: cs => p == c && leadsWith ps cs

def containsSub (p : List Char) : List Char → Bool
  | [] => leadsWith p []
  | c :: cs => leadsWith p (c :: cs) || containsSub p cs

/-- JS `String.prototype.includes`: the pattern occurs as a contiguous
substring (an empty pattern always occurs). -/
def strIncludes (s pat : String) : Bool := containsSub pat.data s.data

/-- A ranged or melee weapon record.  `ap` holds `Number(w.ap)` with a
missing or `"*"` value already replaced by `0` exactly as
`weaponApDamage` does; `apStar` remembers whether the raw field was the
string `"*"`. -/
structure Weapon where
  name : String
  points : Int := 0
  damage : Int := 0
  ap : Int := 0
  apStar : Bool := false
deriving DecidableEq

/-- An accessory / psychic-power / mutation record.  The boolean fields
model presence and truthiness of the JS fields that
`tryBuildModel` inspects to classify a record. -/
structure Item where
  name : String
  points : Int := 0
  powerTypeTruthy : Bool := false
  powerTypeDefined : Bool := false
  rangeTruthy : Bool := false
  horrorGeneratedDefined : Bool := false
  typeDefined : Bool := false
deriving DecidableEq

/-- The mutable combat actor (the object literal built in
`tryBuildModel`, sim.js line 1523). -/
structure Model where
  id : Nat := 0
  role : String := ""
  name : String := ""
  team : Option Team := none
  tx : Int := -1
  ty : Int := -1
  deployed : Bool := false
  defense : Int := 1
  shoot : Int := 1
  fight : Int := 1
  will : Int := 1
  ranged : Option Weapon := none
  melee : Option Weapon := none
  accessories : List Item := []
  psychic : List Item := []
  mutations : List Item := []
  woundsMax : Int := 0
  wounds : Int := 0
  exhausted : Bool := false
  actionsRemaining : Int := ACTIONS_PER_ACTIVATION
  actionPenaltyNext : Int := 0
  suppressed : Bool := false
  horror : Int := 0
  horrorGainedThisRound : Bool := false
  aimConsecutive : Int := 0
  aimBonus : Int := 0
  recoveredThisActivation : Bool := false
  rerollShootUsed : Bool := false
  rerollFightUsed : Bool := false
  hasPsychicScars : Bool := false
  isLeader : Bool := false
deriving DecidableEq

def statPointsCost (m : Model) : Int :=
  (tableLookup DEF_WILL_TABLE (some m.defense)).cost
    + (tableLookup DEF_WILL_TABLE (some m.will)).cost
    + (tableLookup SHOOT_FIGHT_TABLE (some m.shoot)).cost
    + (tableLookup SHOOT_FIGHT_TABLE (some m.fight)).cost

def itemNamed (l : List Item) (n : String) : Bool :=
  l.any (fun a => strLower a.name = n)

/-- `woundsTotal` (sim.js line 1318): sum of tiers, +1 for the
Monstrous mutation. -/
def woundsTotal (m : Model) : Int :=
  m.defense + m.shoot + m.fight + m.will
    + (if itemNamed m.mutations "monstrous" then 1 else 0)

def equipmentCapacity (m : Model) : Int := m.defense

def psychicMutationCapacity (m : Model) : Int := m.will

/-- `savingThrowTarget` (sim.js line 1331). -/
def savingThrowTarget (m : Model) : Int :=
  max 10 ((SAVE_TARGET_BY_WILL m.will).getD ((SAVE_TARGET_BY_WILL 1).getD 0))

/-- `armorClass` (sim.js line 1336). -/
def armorClass (m : Model) : Int :=
  10 + defenseMod (some m.defense)
    + (if itemNamed m.accessories "heavy armor" then 1 else 0)
    + (if itemNamed m.mutations "chitin armor" then 1 else 0)

/-- `modelHas` (sim.js line 1346): case-insensitive name membership in
accessories, mutations or psychic powers. -/
def modelHas (m : Model) (nameLower : String) : Bool :=
  let n := strLower nameLower
  itemNamed m.accessories n || itemNamed m.mutations n || itemNamed m.psychic n

/-- Squared tile distance; the source compares the real distance
`distM = sqrt(dx^2+dy^2)/2` against constants, we compare the squares
(`distM > c` iff `distSq > 4*c^2`). -/
def distSq (a b : Model) : Int :=
  (a.tx - b.tx) * (a.tx - b.tx) + (a.ty - b.ty) * (a.ty - b.ty)

def isAdjacentPos (ax ay bx by' : Int) : Bool :=
  (ax - bx).natAbs ≤ 1 && (ay - by').natAbs ≤ 1
    && !((ax - bx).natAbs = 0 && (ay - by').natAbs = 0)

def isAdjacent (a b : Model) : Bool := isAdjacentPos a.tx a.ty b.tx b.ty

def inBounds (x y : Int) : Bool := 0 ≤ x && 0 ≤ y && x < GRID_W && y < GRID_H

/-- The tile grid: rows of tile codes, indexed `grid[y][x]`. -/
def GridT := List (List Nat)

instance : DecidableEq GridT := by
  unfold GridT
  infer_instance

def tileAt (g : GridT) (x y : Int) : Nat :=
  if x < 0 || y < 0 then TILE_EMPTY
  else ((List.getD g y.toNat []).getD x.toNat TILE_EMPTY)

def intRange (a b : Int) : List Int :=
  (List.range (b - a + 1).toNat).map (fun i => a + (i : Int))

/-- `neighbors8` (sim.js line 1377). -/
def neighbors8 (x y : Int) : List (Int × Int) :=
  ((intRange (y - 1) (y + 1)).flatMap fun ny =>
    (intRange (x - 1) (x + 1)).map fun nx => (nx, ny)).filter
    (fun p => !(p.1 = x && p.2 = y) && inBounds p.1 p.2)

/-- The loop body of `bresenhamCells` (sim.js line 1391), made total
with a fuel argument; `bresenhamCells` supplies fuel strictly larger
than the number of iterations the JS loop performs. -/
def bresLoop (x1 y1 dx dy sx sy : Int) : Nat → Int → Int → Int → List (Int × Int)
  | 0, _, _, _ => []
  | fuel + 1, x, y, err =>
    (x, y) ::
      (if x = x1 ∧ y = y1 then []
       else
        let e2 := 2 * err
        let err1 := if e2 > -dy then err - dy else err
        let x' := if e2 > -dy then x + sx else x
        let err2 := if e2 < dx then err1 + dx else err1
        let y' := if e2 < dx then y + sy else y
        bresLoop x1 y1 dx dy sx sy fuel x' y' err2)

/-- `bresenhamCells` (sim.js line 1391): cells visited by the integer
line walk, endpoints included. -/
def bresenhamCells (x0 y0 x1 y1 : Int) : List (Int × Int) :=
  let dx : Int := (x1 - x0).natAbs
  let dy : Int := (y1 - y0).natAbs
  let sx : Int := if x0 < x1 then 1 else -1
  let sy : Int := if y0 < y1 then 1 else -1
  bresLoop x1 y1 dx dy sx sy ((dx + dy).toNat + 1) x0 y0 (dx - dy)

structure LosInfo where
  blocked : Bool
  heavyThrough : Bool
  cornerClipLight : Bool
  cells : List (Int × Int)
deriving DecidableEq

/-- The `for (i = 1; i < cells.length - 1; ...)` scan of `lineOfSight`:
`prev` is the previously visited cell, the scan stops before the final
(target) cell and aborts on the first blocking tile. -/
def losScan (g : GridT) : (Int × Int) → List (Int × Int) → Bool → Bool →
    Bool × Bool × Bool
  | _, [], heavy, clip => (false, heavy, clip)
  | _, [_], heavy, clip => (false, heavy, clip)
  | prev, c :: next :: tail, heavy, clip =>
    let t := tileAt g c.1 c.2
    if t = TILE_BLOCK then (true, heavy, clip)
    else
      let heavy' := heavy || (t = TILE_HEAVY : Bool)
      let d1x := c.1 - prev.1
      let d1y := c.2 - prev.2
      let d2x := next.1 - c.1
      let d2y := next.2 - c.2
      let diagonalStep :=
        (d1x.natAbs = 1 && d1y.natAbs = 1) || (d2x.natAbs = 1 && d2y.natAbs = 1)
      let clip1 := clip ||
        (diagonalStep && inBounds prev.1 c.2 && (tileAt g prev.1 c.2 = TILE_BLOCK : Bool))
      let clip2 := clip1 ||
        (diagonalStep && inBounds c.1 prev.2 && (tileAt g c.1 prev.2 = TILE_BLOCK : Bool))
      losScan g c (next :: tail) heavy' clip2

/-- `lineOfSight` (sim.js line 1413). -/
def lineOfSight (g : GridT) (a b : Model) : LosInfo :=
  let cells := bresenhamCells a.tx a.ty b.tx b.ty
  match cells with
  | [] => ⟨false, false, false, []⟩
  | p :: rest =>
    let r := losScan g p rest false false
    ⟨r.1, r.2.1, r.2.2, cells⟩

/-- `touchingObstacle` (sim.js line 1447). -/
def touchingObstacle (g : GridT) (m : Model) : Bool :=
  (neighbors8 m.tx m.ty).any fun p =>
    let t := tileAt g p.1 p.2
    (t = TILE_BLOCK : Bool) || (t = TILE_HEAVY : Bool)

/-- The whole game state (`makeGame`'s object, sim.js line 1954), with
the log omitted and the `Math.random` source made explicit as `rng`. -/
structure Game where
  grid : GridT
  models : List Model
  round : Int := 1
  activeTeam : Option Team := none
  activeModelId : Option Nat := none
  waitingFor : String := "init"
  selectedAction : Option String := none
  rng : List Nat := []
deriving DecidableEq

/-- Consume one element of the random stream (one `Math.random` call);
an exhausted stream yields `0`. -/
def rngNext (g : Game) : Nat × Game :=
  match g.rng with
  | [] => (0, g)
  | e :: rest => (e, { g with rng := rest })

/-- `rollDie(sides)`: `randint(1, sides)` driven by one draw. -/
def rollDie (sides : Nat) (g : Game) : Int × Game :=
  ((1 : Int) + ((rngNext g).1 % sides : Nat), (rngNext g).2)

/-- `Math.random() < p/10` driven by one draw. -/
def randLtTenths (tenths : Nat) (g : Game) : Bool × Game :=
  ((rngNext g).1 % 10 < tenths, (rngNext g).2)

def findModel (g : Game) (id : Nat) : Option Model :=
  g.models.find? (fun m => m.id = id)

def updModel (g : Game) (id : Nat) (f : Model → Model) : Game :=
  { g with models := g.models.map (fun m => if m.id = id then f m else m) }

def livingModels (g : Game) : List Model := g.models.filter (fun m => m.wounds > 0)

def livingOfTeam (g : Game) (t : Team) : List Model :=
  (livingModels g).filter (fun m => m.team = some t)

def unexhaustedOfTeam (g : Game) (t : Team) : List Model :=
  (livingOfTeam g t).filter (fun m => !m.exhausted)

/-- `maxWillModInTeam` (sim.js line 1993). -/
def maxWillModInTeam (g : Game) (t : Team) : Int :=
  let ms := livingOfTeam g t
  if ms.isEmpty then 0
  else ms.foldl
    (fun best m => max best (willMod (some m.will) + (if m.hasPsychicScars then 1 else 0)))
    (-999)

def effectiveWillMod (m : Model) : Int :=
  willMod (some m.will) + (if m.hasPsychicScars then 1 else 0)
    + (if modelHas m "psychic focus" then 1 else 0)

def effectiveShootMod (m : Model) : Int :=
  shootMod (some m.shoot) + (if modelHas m "targeting reticule" then 1 else 0)

def effectiveFightMod (m : Model) : Int :=
  fightMod (some m.fight) + (if modelHas m "cybernetics" then 1 else 0)

def horrorPenalty (m : Model) : Int := -(clamp m.horror 0 MAX_HORROR)

/-- `canShoot` (sim.js line 2115): false iff some deployed living enemy
is adjacent. -/
def canShoot (g : Game) (a : Model) : Bool :=
  !(livingModels g).any fun e =>
    (e.team ≠ a.team : Bool) && e.deployed && isAdjacent a e

/-- `engagedEnemies` (sim.js line 2123). -/
def engagedEnemies (g : Game) (m : Model) : List Model :=
  (livingModels g).filter fun e =>
    (e.team ≠ m.team : Bool) && e.deployed && isAdjacent m e

/-- `terrainCoverPenalty` (sim.js line 2152). -/
def terrainCoverPenalty (g : Game) (defender : Model) : Int :=
  if modelHas defender "monstrous" then 0
  else if !touchingObstacle g.grid defender then 0
  else -1

structure LosCover where
  ok : Bool
  los : LosInfo
  coverPenalty : Int
deriving DecidableEq

/-- `losAndCover` (sim.js line 2161). -/
def losAndCover (g : Game) (a d : Model) : LosCover :=
  let los := lineOfSight g.grid a d
  if los.blocked then ⟨false, los, 0⟩
  else
    let p1 : Int := if los.heavyThrough then -3 else 0
    let p2 : Int := if los.cornerClipLight then -1 else 0
    ⟨true, los, p1 + p2 + terrainCoverPenalty g d⟩

/-- `rangePenalty` (sim.js line 2179): `distM > 3` iff `distSq > 36`,
`distM > 2` iff `distSq > 16`. -/
def rangePenalty (a d : Model) : Int :=
  if distSq a d > 36 then -3
  else if distSq a d > 16 then -1
  else 0

/-- `applyDamage` (sim.js line 2186). -/
def applyDamage (g : Game) (targetId : Nat) (dmg : Int) : Game :=
  updModel g targetId fun t =>
    let w := max 0 (t.wounds - dmg)
    if w ≤ 0 then { t with wounds := w, deployed := false, tx := -1, ty := -1 }
    else { t with wounds := w }

/-- `gainHorror` (sim.js line 2197). -/
def gainHorror (g : Game) (id : Nat) (amount : Int) : Game :=
  if amount ≤ 0 then g
  else
    match findModel g id with
    | none => g
    | some m =>
      if m.horrorGainedThisRound then g
      else updModel g id fun m' =>
        { m' with horror := clamp (m'.horror + amount) 0 MAX_HORROR,
                  horrorGainedThisRound := true }

structure TestResult where
  raw : Int
  total : Int
  pass : Bool
  target : Int
deriving DecidableEq

/-- `horrorTest` (sim.js line 2211); reads the model, mutates nothing
but the random stream. -/
def horrorTest (g : Game) (m : Model) : TestResult × Game :=
  let raw := (rollDie 20 g).1
  let total := raw + effectiveWillMod m + horrorPenalty m
  let target := savingThrowTarget m
  (⟨raw, total, total ≥ target, target⟩, (rollDie 20 g).2)

/-- `spendAction` (sim.js line 2224). -/
def spendAction (g : Game) (id : Nat) (reason : String) : Game :=
  updModel g id fun m =>
    { m with actionsRemaining := max 0 (m.actionsRemaining - 1),
             aimConsecutive := if reason = "Aim" then m.aimConsecutive + 1 else 0,
             aimBonus := if reason ≠ "Aim" then 0 else m.aimBonus }

def moveModel (g : Game) (id : Nat) (toX toY : Int) : Game :=
  updModel g id fun m => { m with tx := toX, ty := toY }

def isTileOccupied (g : Game) (x y : Int) : Bool :=
  (livingModels g).any fun m => m.deployed && m.tx = x && m.ty = y

/-- `canStepOn` (sim.js line 2238). -/
def canStepOn (g : Game) (x y : Int) : Bool :=
  inBounds x y && (tileAt g.grid x y ≠ TILE_BLOCK : Bool) && !isTileOccupied g x y

/-- `tilesWithinChebyshev` (sim.js line 2247): y-major iteration order. -/
def tilesWithinChebyshev (fx fy maxSteps : Int) : List (Int × Int) :=
  (intRange (fy - maxSteps) (fy + maxSteps)).flatMap fun y =>
    (intRange (fx - maxSteps) (fx + maxSteps)).filterMap fun x =>
      if inBounds x y ∧ ((max (x - fx).natAbs (y - fy).natAbs : Nat) : Int) ≤ maxSteps
      then some (x, y) else none

/-- A resolver's `{ ok, reason }` return value. -/
structure Outcome where
  ok : Bool
  reason : String := ""
deriving DecidableEq

/-- Insert keeping ascending key order, after existing equal keys
(stable, as JS `Array.prototype.sort`). -/
def insertByKey {α : Type} (key : α → Int) (x : α) : List α → List α
  | [] => [x]
  | y :: ys => if key x < key y then x :: y :: ys else y :: insertByKey key x ys

def sortByKey {α : Type} (key : α → Int) (l : List α) : List α :=
  l.foldl (fun acc x => insertByKey key x acc) []

/-- The relocation step of `resolveMove`, shared by the unsuppressed
path and the passed-horror-test path. -/
def moveAttempt (g' : Game) (id : Nat) (m : Model) (toX toY : Int) : Game × Outcome :=
  let options := tilesWithinChebyshev m.tx m.ty MOVE_PER_ACTION
  if !options.any (fun p => (p.1 = toX : Bool) && (p.2 = toY : Bool)) then
    (g', ⟨false, "Out of range"⟩)
  else if !canStepOn g' toX toY then (g', ⟨false, "Blocked or occupied"⟩)
  else (spendAction (moveModel g' id toX toY) id "Move", ⟨true, ""⟩)

/-- `resolveMove` (sim.js line 2261). -/
def resolveMove (g : Game) (id : Nat) (toX toY : Int) : Game × Outcome :=
  match findModel g id with
  | none => (g, ⟨false, "Invalid model"⟩)
  | some m =>
    if !m.deployed then (g, ⟨false, "Not deployed"⟩)
    else if m.actionsRemaining ≤ 0 then (g, ⟨false, "No actions"⟩)
    else
      if m.suppressed then
        let ht := (horrorTest g m).1
        let g1 := (horrorTest g m).2
        if !ht.pass then
          (spendAction (gainHorror g1 id 1) id "Move",
            ⟨false, "Suppressed and failed horror test"⟩)
        else moveAttempt g1 id m toX toY
      else moveAttempt g id m toX toY

/-- `resolveCharge` (sim.js line 2287). -/
def resolveCharge (g : Game) (aid tid : Nat) : Game × Outcome :=
  match findModel g aid with
  | none => (g, ⟨false, "Invalid model"⟩)
  | some m =>
    if !m.deployed then (g, ⟨false, "Not deployed"⟩)
    else if m.actionsRemaining ≤ 0 then (g, ⟨false, "No actions"⟩)
    else
      match findModel g tid with
      | none => (g, ⟨false, "Invalid target"⟩)
      | some target =>
        if target.team = m.team ∨ target.wounds ≤ 0 ∨ !target.deployed then
          (g, ⟨false, "Invalid target"⟩)
        else
          let options := tilesWithinChebyshev m.tx m.ty MOVE_PER_ACTION
          let ends := options.filter fun p =>
            !isTileOccupied g p.1 p.2 && canStepOn g p.1 p.2
              && isAdjacentPos p.1 p.2 target.tx target.ty
          match sortByKey
              (fun p => ((p.1 - target.tx).natAbs + (p.2 - target.ty).natAbs : Nat))
              ends with
          | [] => (g, ⟨false, "No reachable engagement position"⟩)
          | e :: _ =>
            let g1 := spendAction (moveModel g aid e.1 e.2) aid "Charge"
            let ht := (horrorTest g1 target).1
            let g2 := (horrorTest g1 target).2
            if ht.pass then (g2, ⟨true, ""⟩)
            else
              let g3 := gainHorror g2 tid 1
              (updModel g3 tid
                  (fun t => { t with actionPenaltyNext := clamp (t.actionPenaltyNext + 1) 0 2 }),
                ⟨true, ""⟩)

/-- `resolveAim` (sim.js line 2317); `spendAction` already incremented
`aimConsecutive`, so the bonus test reads the updated value. -/
def resolveAim (g : Game) (id : Nat) : Game × Outcome :=
  match findModel g id with
  | none => (g, ⟨false, "Invalid model"⟩)
  | some m =>
    if m.actionsRemaining ≤ 0 then (g, ⟨false, "No actions"⟩)
    else if m.suppressed then (g, ⟨false, "Suppressed"⟩)
    else
      let g1 := spendAction g id "Aim"
      let aimC : Int := ((findModel g1 id).map Model.aimConsecutive).getD 0
      (updModel g1 id (fun m' => { m' with aimBonus := if aimC ≥ 2 then 3 else 1 }),
        ⟨true, ""⟩)

/-- `resolveRecover` (sim.js line 2338). -/
def resolveRecover (g : Game) (id : Nat) : Game × Outcome :=
  match findModel g id with
  | none => (g, ⟨false, "Invalid model"⟩)
  | some m =>
    if m.actionsRemaining ≤ 0 then (g, ⟨false, "No actions"⟩)
    else if m.recoveredThisActivation then (g, ⟨false, "Already recovered"⟩)
    else
      let g1 := updModel (spendAction g id "Recover") id
        (fun m' => { m' with recoveredThisActivation := true })
      if m.horror > 0 then
        (updModel g1 id (fun m' => { m' with horror := max 0 (m'.horror - 1) }), ⟨true, ""⟩)
      else if m.suppressed then
        (updModel g1 id (fun m' => { m' with suppressed := false }), ⟨true, ""⟩)
      else (g1, ⟨true, ""⟩)

/-- `String(w?.name ?? "").toLowerCase()`. -/
def weaponName (w : Option Weapon) : String := strLower ((w.map Weapon.name).getD "")

/-- `weaponReqAim` (sim.js line 2398). -/
def weaponReqAim (w : Option Weapon) : Int :=
  let nm := weaponName w
  if strIncludes nm "rocket launcher" then 2
  else if strIncludes nm "sniper rifle" then 1
  else 0

/-- `ceil(sqrt n / 2)` for `n ≥ 0`: smallest `k` with `4*k*k ≥ n`. -/
def ceilSqrtHalf (n : Int) : Int :=
  ((((List.range (n.toNat + 2)).map (fun k => (k : Int))).find?
    (fun k => decide (n ≤ 4 * k * k))).getD 0)

/-- `weaponToHitBonusAndPenaltyFromText` (sim.js line 2405); real
comparisons on `distM` are done on squared distances
(`distM > 1` iff `distSq > 4`, `ceil(distM) = ceilSqrtHalf distSq`). -/
def weaponToHitMod (a d : Model) (w : Option Weapon) : Int :=
  let nm := weaponName w
  let d2 := distSq a d
  if strIncludes nm "sidearm" then (if d2 > 4 then -2 else 0)
  else if strIncludes nm "energy pistol" then (if d2 > 4 then -2 else 0)
  else if strIncludes nm "shotgun" then (if d2 > 4 then -2 * ceilSqrtHalf d2 else 0)
  else 0

/-- `weaponApDamage` (sim.js line 2429); `distM < 1` iff `distSq < 4`. -/
def weaponApDamage (a d : Model) (w : Option Weapon) : Int × Int :=
  let nm := weaponName w
  let ap0 : Int := match w with
    | none => 0
    | some w' => if w'.apStar then 0 else w'.ap
  let dmg0 : Int := (w.map Weapon.damage).getD 0
  let d2 := distSq a d
  if strIncludes nm "energy pistol" then ((if d2 < 4 then 1 else ap0), dmg0)
  else if strIncludes nm "shotgun" then
    (if d2 < 4 then (1, dmg0 + 1) else (ap0, dmg0))
  else (ap0, dmg0)

/-- `resolveHitDamageAndSave` (sim.js line 2546). -/
def resolveHitDamageAndSave (g : Game) (aid did : Nat) (weapon : Option Weapon)
    (nat20 : Bool) (losInfo : LosCover) : Game × Outcome :=
  match findModel g aid, findModel g did with
  | some attacker, some defender =>
    let apDmg := weaponApDamage attacker defender weapon
    let finalDmg := if nat20 then apDmg.2 + 1 else apDmg.2
    let saveTarget := max 10 (savingThrowTarget defender - apDmg.1)
    if nat20 ∧ !losInfo.los.heavyThrough then
      (applyDamage g did finalDmg, ⟨true, ""⟩)
    else
      let sraw := (rollDie 20 g).1
      let g1 := (rollDie 20 g).2
      let stotal := sraw + effectiveWillMod defender + horrorPenalty defender
      if stotal ≥ saveTarget then (g1, ⟨true, ""⟩)
      else (applyDamage g1 did finalDmg, ⟨true, ""⟩)
  | _, _ => (g, ⟨true, ""⟩)

/-- The Extra-Eyes reroll branch of `resolveShoot` (sim.js lines
2514-2537); a successful non-nat-20 reroll falls through without dealing
damage, as in the source. -/
def shootReroll (g4 : Game) (aid did : Nat) (weapon : Option Weapon)
    (targetAC modsSum : Int) (losInfo : LosCover) : Game × Outcome :=
  let g5 := updModel g4 aid (fun m => { m with rerollShootUsed := true })
  let rr := (rollDie 20 g5).1
  let g6 := (rollDie 20 g5).2
  if rr = 1 then (g6, ⟨true, ""⟩)
  else
    let rrNat20 := (rr = 20 : Bool)
    if !(rrNat20 || rr + modsSum ≥ targetAC) then (g6, ⟨true, ""⟩)
    else if rrNat20 then resolveHitDamageAndSave g6 aid did weapon true losInfo
    else (g6, ⟨true, ""⟩)

/-- The dice part of `resolveShoot`, entered after every validation has
passed and the target has been suppressed. -/
def shootRolls (g1 : Game) (aid did : Nat) (attacker defender : Model)
    (losInfo : LosCover) : Game × Outcome :=
  let weapon := attacker.ranged
  let targetAC := armorClass defender
  let rangeMod := if strIncludes (weaponName weapon) "sniper rifle" then 0
    else rangePenalty attacker defender
  let modsSum := effectiveShootMod attacker + attacker.aimBonus
    + weaponToHitMod attacker defender weapon + rangeMod
    + losInfo.coverPenalty + horrorPenalty attacker
  let raw := (rollDie 20 g1).1
  let g2 := (rollDie 20 g1).2
  let total := raw + modsSum
  let g4 := spendAction
    (updModel g2 aid (fun m => { m with aimBonus := 0, aimConsecutive := 0 }))
    aid "Shoot"
  if raw = 1 then (g4, ⟨true, ""⟩)
  else
    let nat20 := (raw = 20 : Bool)
    if nat20 || total ≥ targetAC then
      resolveHitDamageAndSave g4 aid did weapon nat20 losInfo
    else if !attacker.rerollShootUsed && modelHas attacker "extra eyes" then
      shootReroll g4 aid did weapon targetAC modsSum losInfo
    else (g4, ⟨true, ""⟩)

/-- `resolveShoot` (sim.js line 2449).  A faithful oddity: the target is
marked suppressed *before* the required-aim check. -/
def resolveShoot (g : Game) (aid did : Nat) : Game × Outcome :=
  match findModel g aid, findModel g did with
  | some attacker, some defender =>
    if attacker.actionsRemaining ≤ 0 then (g, ⟨false, "No actions"⟩)
    else if defender.team = attacker.team ∨ defender.wounds ≤ 0 ∨ !defender.deployed then
      (g, ⟨false, "Invalid target"⟩)
    else if !canShoot g attacker then (g, ⟨false, "Engaged"⟩)
    else
      let losInfo := losAndCover g attacker defender
      if !losInfo.ok then (g, ⟨false, "No LoS"⟩)
      else
        let g1 := updModel g did (fun t => { t with suppressed := true })
        let reqAim := weaponReqAim attacker.ranged
        if reqAim > 0 ∧ attacker.aimConsecutive < reqAim then (g1, ⟨false, "Needs Aim"⟩)
        else shootRolls g1 aid did attacker defender losInfo
  | _, _ => (g, ⟨false, "Invalid target"⟩)

/-- `resolveMeleeDamageAndSave` (sim.js line 2636): melee always allows
the save, even on a natural 20. -/
def resolveMeleeDamageAndSave (g : Game) (aid did : Nat) (weapon : Option Weapon)
    (nat20 : Bool) : Game × Outcome :=
  match findModel g aid, findModel g did with
  | some attacker, some defender =>
    let ap : Int := match weapon with
      | none => 0
      | some w' => if w'.apStar then 0 else w'.ap
    let dmg0 : Int := ((weapon.map Weapon.damage).getD 0)
      + (if modelHas attacker "monstrous" then 1 else 0)
    let finalDmg := if nat20 then dmg0 + 1 else dmg0
    let saveTarget := max 10 (savingThrowTarget defender - ap)
    let sraw := (rollDie 20 g).1
    let g1 := (rollDie 20 g).2
    let stotal := sraw + effectiveWillMod defender + horrorPenalty defender
    if stotal ≥ saveTarget then (g1, ⟨true, ""⟩)
    else (applyDamage g1 did finalDmg, ⟨true, ""⟩)
  | _, _ => (g, ⟨true, ""⟩)

/-- The Reinforced-Weapon reroll branch of `resolveFightAttack`
(sim.js lines 2614-2628); unlike the Shoot reroll this one resolves
damage on a rerolled hit. -/
def fightReroll (g2 : Game) (aid did : Nat) (weapon : Option Weapon)
    (targetAC modsSum : Int) : Game × Outcome :=
  let g3 := updModel g2 aid (fun m => { m with rerollFightUsed := true })
  let rr := (rollDie 20 g3).1
  let g4 := (rollDie 20 g3).2
  if rr = 1 then (g4, ⟨true, ""⟩)
  else
    let rrNat20 := (rr = 20 : Bool)
    if !(rrNat20 || rr + modsSum ≥ targetAC) then (g4, ⟨true, ""⟩)
    else resolveMeleeDamageAndSave g4 aid did weapon rrNat20

/-- The dice part of `resolveFightAttack`, entered after validation. -/
def fightRolls (g : Game) (aid did : Nat) (free : Bool)
    (attacker defender : Model) : Game × Outcome :=
  let weapon := attacker.melee
  let targetAC := armorClass defender
  let isUnarmed := strIncludes (weaponName weapon) "unarmed"
  let modsSum := effectiveFightMod attacker + horrorPenalty attacker
    + (if isUnarmed && !modelHas attacker "clawed limbs" then -2 else 0)
  let raw := (rollDie 20 g).1
  let g1 := (rollDie 20 g).2
  let total := raw + modsSum
  let g2 := if !free then spendAction g1 aid "Fight" else g1
  if raw = 1 then (g2, ⟨true, ""⟩)
  else
    let nat20 := (raw = 20 : Bool)
    if nat20 || total ≥ targetAC then
      resolveMeleeDamageAndSave g2 aid did weapon nat20
    else if !attacker.rerollFightUsed && modelHas attacker "reinforced weapon" then
      fightReroll g2 aid did weapon targetAC modsSum
    else (g2, ⟨true, ""⟩)

/-- `resolveFightAttack` (sim.js line 2579). -/
def resolveFightAttack (g : Game) (aid did : Nat) (free : Bool) : Game × Outcome :=
  match findModel g aid, findModel g did with
  | some attacker, some defender =>
    if !free && attacker.actionsRemaining ≤ 0 then (g, ⟨false, "No actions"⟩)
    else if defender.team = attacker.team ∨ defender.wounds ≤ 0 ∨ !defender.deployed then
      (g, ⟨false, "Invalid target"⟩)
    else if !isAdjacent attacker defender then (g, ⟨false, "Not engaged"⟩)
    else fightRolls g aid did free attacker defender
  | _, _ => (g, ⟨false, "Invalid target"⟩)

/-- `resolveDisengage` (sim.js line 2363). -/
def resolveDisengage (g : Game) (id : Nat) (toX toY : Int) : Game × Outcome :=
  match findModel g id with
  | none => (g, ⟨false, "Invalid model"⟩)
  | some m =>
    if m.actionsRemaining ≤ 0 then (g, ⟨false, "No actions"⟩)
    else
      match engagedEnemies g m with
      | [] => (g, ⟨false, "Not engaged"⟩)
      | attacker :: _ =>
        let options := tilesWithinChebyshev m.tx m.ty MOVE_PER_ACTION
        if !options.any (fun p => (p.1 = toX : Bool) && (p.2 = toY : Bool)) then
          (g, ⟨false, "Out of range"⟩)
        else if !canStepOn g toX toY then (g, ⟨false, "Blocked or occupied"⟩)
        else if (livingModels g).any (fun e =>
            (e.team ≠ m.team : Bool) && e.deployed && isAdjacentPos toX toY e.tx e.ty) then
          (g, ⟨false, "Must end not engaged"⟩)
        else
          let g1 := (resolveFightAttack g attacker.id m.id true).1
          (spendAction (moveModel g1 id toX toY) id "Disengage", ⟨true, ""⟩)

/-- The per-model latch reset done on every living model at round
start. -/
def resetLatches (m : Model) : Model :=
  if m.wounds > 0 then
    { m with horrorGainedThisRound := false, rerollShootUsed := false,
             rerollFightUsed := false }
  else m

def resetExhaustion (m : Model) : Model :=
  if m.wounds > 0 then { m with exhausted := false } else m

/-- The per-round reset prefix of `startRound` (sim.js lines 2012-2024):
clear the per-round latches of every living model, and clear
`exhausted` when every living model is exhausted. -/
def roundResets (g : Game) : Game :=
  let g0 := { g with models := g.models.map resetLatches }
  let allLiving := livingModels g0
  if !allLiving.isEmpty && allLiving.all Model.exhausted then
    { g0 with models := g0.models.map resetExhaustion }
  else g0

/-- `startRound` (sim.js line 2011).  An exact initiative tie is settled
by a single `Math.random() < 0.5` coin, not by re-rolling. -/
def startRound (g : Game) : Game :=
  let g1 := roundResets g
  let blueMod := maxWillModInTeam g1 TEAM_BLUE
  let redMod := maxWillModInTeam g1 TEAM_RED
  let b := (rollDie 20 g1).1
  let g2 := (rollDie 20 g1).2
  let r := (rollDie 20 g2).1
  let g3 := (rollDie 20 g2).2
  let bt := b + blueMod
  let rt := r + redMod
  let res : Team × Game :=
    if bt > rt then (TEAM_BLUE, g3)
    else if rt > bt then (TEAM_RED, g3)
    else
      ((if (randLtTenths 5 g3).1 then TEAM_BLUE else TEAM_RED), (randLtTenths 5 g3).2)
  { res.2 with activeTeam := some res.1, activeModelId := none,
               waitingFor := "pickModel", selectedAction := none }

/-! ### Random warband generation (sim.js lines 1502-1664)

The generator runs before a `Game` exists, so it threads the raw random
stream (`List Nat`) directly. -/

def take1 (s : List Nat) : Nat × List Nat :=
  match s with
  | [] => (0, [])
  | e :: r => (e, r)

/-- `pickRandom` (sim.js line 1503): draws only when the list is
non-empty. -/
def gpick {α : Type} (l : List α) (s : List Nat) : Option α × List Nat :=
  if l.isEmpty then (none, s)
  else
    let (e, s') := take1 s
    (l.get? (e % l.length), s')

/-- `Math.random() < tenths/10` on the raw stream. -/
def gflag (tenths : Nat) (s : List Nat) : Bool × List Nat :=
  let (e, s') := take1 s
  (e % 10 < tenths, s')

/-- `randint(1,3)`. -/
def rollTier (s : List Nat) : Int × List Nat :=
  let (e, s1) := take1 s
  (((1 : Int) + (e % 3 : Nat)), s1)

def NAME_A : List String :=
  ["Ash", "Mire", "Quawb", "Vanta", "Sable", "Hex", "Null", "Gore", "Weld",
    "Kelo", "Rift", "Pale"]

def NAME_B : List String :=
  ["Warden", "Mason", "Ghoul", "Clade", "Vox", "Rider", "Splice", "Husk",
    "Mirror", "Knife", "Oracle", "Drifter"]

def WB_A : List String :=
  ["The", "House", "Order", "Cult", "Choir", "Syndicate", "Gang", "Circle",
    "Legion", "Coven", "Assembly"]

def WB_B : List String :=
  ["of Rust", "of Glass", "of Teeth", "of Echoes", "of Bone", "of Static",
    "of Ash", "of Ink", "of Rot", "of Cables", "of Night"]

def genName (s : List Nat) : String × List Nat :=
  let (a, s1) := gpick NAME_A s
  let (b, s2) := gpick NAME_B s1
  (a.getD "" ++ " " ++ b.getD "", s2)

def genWarbandName (s : List Nat) : String × List Nat :=
  let (a, s1) := gpick WB_A s
  let (b, s2) := gpick WB_B s1
  (a.getD "" ++ " " ++ b.getD "", s2)

def sumPoints (l : List Item) : Int := l.foldl (fun a x => a + x.points) 0

def weaponPoints (w : Option Weapon) : Int := (w.map Weapon.points).getD 0

/-- `x.power_type || x.range || x.horror_generated !== undefined`. -/
def psiShaped (x : Item) : Bool :=
  x.powerTypeTruthy || x.rangeTruthy || x.horrorGeneratedDefined

/-- `x.type !== undefined && x.power_type === undefined`. -/
def mutShaped (x : Item) : Bool := x.typeDefined && !x.powerTypeDefined

/-- Rule-table inputs of the generator (external collaborator data). -/
structure Tables where
  shoot : List Weapon := []
  fight : List Weapon := []
  accessories : List Item := []
  psychic : List Item := []
  mutations : List Item := []
  warbandTraits : List Item := []
  leaderTraits : List Item := []
deriving DecidableEq

/-- The psi/mutation choice loop of `tryBuildModel` (60/40 psi vs mut,
skipping empty pools). -/
def pmLoop (psiPool mutPool : List Item) :
    Nat → List Item → List Nat → List Item × List Nat
  | 0, acc, s => (acc, s)
  | n + 1, acc, s =>
    let (choosePsi, s1) := gflag 6 s
    let (pick, s2) := gpick (if choosePsi then psiPool else mutPool) s1
    match pick with
    | none => pmLoop psiPool mutPool n acc s2
    | some it => pmLoop psiPool mutPool n (acc ++ [it]) s2

/-- `pmChoices.filter(() => Math.random() < 0.7)`. -/
def randFilter7 : List Item → List Nat → List Item × List Nat
  | [], s => ([], s)
  | x :: xs, s =>
    let (keep, s1) := gflag 7 s
    let (rest, s2) := randFilter7 xs s1
    ((if keep then x :: rest else rest), s2)

/-- The accessory choice loop of `tryBuildModel`. -/
def accLoop (accPool : List Item) :
    Nat → List Item → List Nat → List Item × List Nat
  | 0, acc, s => (acc, s)
  | n + 1, acc, s =>
    let (go, s1) := gflag 6 s
    if go then
      let (a, s2) := gpick accPool s1
      match a with
      | some it => accLoop accPool n (acc ++ [it]) s2
      | none => accLoop accPool n acc s2
    else accLoop accPool n acc s1

structure BuildResult where
  model : Model
  points : Int
deriving DecidableEq

/-- One iteration of `tryBuildModel`'s attempt loop (sim.js lines
1522-1628); `none` means the attempt was rejected over the point cap.
`crypto.randomUUID` is outside the modelled random stream, so `id` is
left at `0`. -/
def buildAttempt (tables : Tables) (role : String) (pointCap : Int)
    (s : List Nat) : Option BuildResult × List Nat :=
  let nm := (genName s).1
  let s1 := (genName s).2
  let dT := (rollTier s1).1
  let s2 := (rollTier s1).2
  let sT := (rollTier s2).1
  let s3 := (rollTier s2).2
  let fT := (rollTier s3).1
  let s4 := (rollTier s3).2
  let wT := (rollTier s4).1
  let s5 := (rollTier s4).2
  let rangedW := (gpick tables.shoot s5).1
  let s6 := (gpick tables.shoot s5).2
  let meleeW := (gpick tables.fight s6).1
  let s7 := (gpick tables.fight s6).2
  let m0 : Model :=
    { role := role, name := nm, defense := dT, shoot := sT, fight := fT,
      will := wT, ranged := rangedW, melee := meleeW }
  let accCap := equipmentCapacity m0
  let pmCap := psychicMutationCapacity m0
  let basePts := statPointsCost m0 + weaponPoints rangedW + weaponPoints meleeW
  if basePts > pointCap then (none, s7)
  else
    let accPool := tables.accessories.filter (fun a => a.points > 0)
    let psiPool := tables.psychic.filter (fun p => p.points > 0)
    let mutPool := tables.mutations.filter (fun p => p.points > 0)
    let pmChoices := (pmLoop psiPool mutPool pmCap.toNat [] s7).1
    let s8 := (pmLoop psiPool mutPool pmCap.toNat [] s7).2
    let pmFinal := (randFilter7 pmChoices s8).1
    let s9 := (randFilter7 pmChoices s8).2
    let psychicL := (pmFinal.filter psiShaped).take pmCap.toNat
    let mutationsL :=
      (pmFinal.filter mutShaped).take ((pmCap - psychicL.length).toNat)
    let scars := itemNamed mutationsL "psychic scars"
    let accFinal := (accLoop accPool accCap.toNat [] s9).1
    let s10 := (accLoop accPool accCap.toNat [] s9).2
    let accessoriesL := accFinal.take accCap.toNat
    let m1 :=
      { m0 with psychic := psychicL, mutations := mutationsL,
                accessories := accessoriesL, hasPsychicScars := scars,
                horror := if scars then 1 else 0 }
    let totalPts := basePts + sumPoints accessoriesL + sumPoints psychicL
      + sumPoints mutationsL
    if totalPts > pointCap then (none, s10)
    else
      let m2 := { m1 with woundsMax := woundsTotal m1, wounds := woundsTotal m1 }
      (some ⟨m2, totalPts⟩, s10)

def tryBuildLoop (tables : Tables) (role : String) (pointCap : Int) :
    Nat → List Nat → Option BuildResult × List Nat
  | 0, s => (none, s)
  | n + 1, s =>
    match buildAttempt tables role pointCap s with
    | (some r, s') => (some r, s')
    | (none, s') => tryBuildLoop tables role pointCap n s'

/-- `tryBuildModel` (sim.js line 1517): up to 400 attempts, `none` when
all are rejected — there is no fallback model. -/
def tryBuildModel (tables : Tables) (role : String) (pointCap : Int)
    (s : List Nat) : Option BuildResult × List Nat :=
  tryBuildLoop tables role pointCap 400 s

structure Warband where
  name : String
  team : Team
  warbandTrait : Option Item
  leaderTrait : Option Item
  models : List Model
deriving DecidableEq

/-- The follower loop of `randomWarband`: JS `throw` is modelled as
`Except.error`. -/
def buildFollowers (tables : Tables) (team : Team) :
    Nat → Nat → List Nat → Except String (List Model) × List Nat
  | 0, _, s => (Except.ok [], s)
  | n + 1, i, s =>
    match tryBuildModel tables ("Follower " ++ toString (i + 1)) 75 s with
    | (none, s') => (Except.error "Could not build follower within 75 points.", s')
    | (some r, s') =>
      match buildFollowers tables team n (i + 1) s' with
      | (Except.ok rest, s'') =>
        (Except.ok ({ r.model with team := some team, isLeader := false } :: rest), s'')
      | (Except.error e, s'') => (Except.error e, s'')

/-- `randomWarband` (sim.js line 1634): one extra leader try, then a
thrown error — no all-tier-1 fallback model is ever produced. -/
def randomWarband (tables : Tables) (team : Team) (s : List Nat) :
    Except String Warband × List Nat :=
  let wname := (genWarbandName s).1
  let s1 := (genWarbandName s).2
  let wtrait := (gpick tables.warbandTraits s1).1
  let s2 := (gpick tables.warbandTraits s1).2
  let ltrait := (gpick tables.leaderTraits s2).1
  let s3 := (gpick tables.leaderTraits s2).2
  let firstTry := tryBuildModel tables "Leader" 20 s3
  let retried :=
    match firstTry.1 with
    | some r => (some r, firstTry.2)
    | none => tryBuildModel tables "Leader" 20 firstTry.2
  let lb2 := retried.1
  let s5 := retried.2
  match lb2 with
  | none =>
    (Except.error "Could not build a leader within 20 points after many attempts.", s5)
  | some leaderBuilt =>
    let leader := { leaderBuilt.model with team := some team, isLeader := true }
    match buildFollowers tables team 4 0 s5 with
    | (Except.ok followers, s6) =>
      (Except.ok ⟨wname, team, wtrait, ltrait, leader :: followers⟩, s6)
    | (Except.error e, s6) => (Except.error e, s6)

/-! ### Concrete fixtures used by counterexamples and witnesses -/

/-- A full-size (22 × 14) grid whose listed cells carry the given tile
code and all other cells are empty. -/
def gridWith (tiles : List (Int × Int × Nat)) : GridT :=
  (List.range 14).map fun y =>
    (List.range 22).map fun x =>
      (((tiles.find? fun t =>
          decide (t.1 = (x : Int)) && decide (t.2.1 = (y : Int)))).map
        (fun t => t.2.2)).getD TILE_EMPTY

def emptyGrid : GridT := gridWith []

/-- A deployed baseline trooper: all tiers 1, 4 wounds, no gear. -/
def mkUnit (id : Nat) (t : Team) (x y : Int) : Model :=
  { id := id, team := some t, tx := x, ty := y, deployed := true,
    woundsMax := 4, wounds := 4 }

/-! ### Fixtures and derived definitions used by the theorems below -/

/-- Modelled from the spec (§4.2): on an exact initiative tie, both
20-sided dice are re-rolled in full, repeatedly, until the tie breaks;
`fuel` bounds the number of roll pairs drawn from the stream, `none`
meaning the stream's prefix never broke the tie.  Used only to compare
the spec's wording with the source's `startRound`. -/
def specInitiativeWinner (blueMod redMod : Int) : Nat → List Nat → Option Team
  | 0, _ => none
  | fuel + 1, s =>
    let b : Int := (1 : Int) + ((take1 s).1 % 20 : Nat)
    let s1 := (take1 s).2
    let r : Int := (1 : Int) + ((take1 s1).1 % 20 : Nat)
    let s2 := (take1 s1).2
    if b + blueMod > r + redMod then some TEAM_BLUE
    else if r + redMod > b + blueMod then some TEAM_RED
    else specInitiativeWinner blueMod redMod fuel s2

def uInitB : Model := mkUnit 1 Team.blue 2 2

def uInitR : Model := mkUnit 2 Team.red 10 10

/-- Both teams roll `d20 + 0`; the stream `[0,0,19,0]` makes the first
pair tie. -/
def gInit : Game := { grid := emptyGrid, models := [uInitB, uInitR], rng := [0, 0, 19, 0] }

def atkC3 : Model := mkUnit 1 Team.blue 2 2

def defC3 : Model := mkUnit 2 Team.red 8 2

/-- Heavy cover on the sightline at (5,2) and a blocking obstacle
touching the defender at (9,2), off the sightline. -/
def gC3 : Game :=
  { grid := gridWith [(5, 2, TILE_HEAVY), (9, 2, TILE_BLOCK)],
    models := [atkC3, defC3] }

def rifleC5 : Weapon := { name := "Rifle", points := 2, damage := 3, ap := 0 }

def atkC5 : Model := { mkUnit 1 Team.blue 2 2 with ranged := some rifleC5 }

/-- The defender stands *on* the heavy-cover tile (5,2), which lies on
the line from the attacker at (2,2). -/
def defC5 : Model := mkUnit 2 Team.red 5 2

def gC5 : Game :=
  { grid := gridWith [(5, 2, TILE_HEAVY)], models := [atkC5, defC5], rng := [19, 15] }

/-- The heavy tile (4,2) lies strictly between attacker (2,2) and
defender (6,2). -/
def defC5b : Model := mkUnit 2 Team.red 6 2

def gC5b : Game :=
  { grid := gridWith [(4, 2, TILE_HEAVY)], models := [atkC5, defC5b], rng := [19, 18] }

def mDis : Model := mkUnit 1 Team.blue 5 5

def eDis : Model := mkUnit 2 Team.red 5 6

def gC4 : Game := { grid := emptyGrid, models := [mDis, eDis], rng := [19, 3] }

/-- A legal disengage for the witness: dest (5,3) is in range, free, and
not adjacent to the enemy; the opportunity attack rolls a natural 1. -/
def gC4w : Game := { grid := emptyGrid, models := [mDis, eDis], rng := [0, 9] }

/-- The fields of a `Model` that C1 names: position, wounds, suppression
and board presence (plus the identity). -/
def coreView (m : Model) : Nat × Int × Int × Int × Bool × Bool :=
  (m.id, m.tx, m.ty, m.wounds, m.suppressed, m.deployed)

def rocketW : Weapon := { name := "Rocket Launcher", points := 6, damage := 4, ap := 2 }

def atkC1 : Model := { mkUnit 1 Team.blue 2 2 with ranged := some rocketW }

def defC1 : Model := mkUnit 2 Team.red 5 2

def gC1 : Game := { grid := emptyGrid, models := [atkC1, defC1], rng := [7] }

/-- One resolver invocation, the within-round operations of the combat
resolver. -/
inductive Act where
  | move (id : Nat) (x y : Int)
  | charge (aid tid : Nat)
  | shoot (aid did : Nat)
  | fight (aid did : Nat) (free : Bool)
  | disengage (id : Nat) (x y : Int)
  | aim (id : Nat)
  | recover (id : Nat)

def applyAct (g : Game) : Act → Game
  | .move id x y => (resolveMove g id x y).1
  | .charge aid tid => (resolveCharge g aid tid).1
  | .shoot aid did => (resolveShoot g aid did).1
  | .fight aid did free => (resolveFightAttack g aid did free).1
  | .disengage id x y => (resolveDisengage g id x y).1
  | .aim id => (resolveAim g id).1
  | .recover id => (resolveRecover g id).1

def applyActs : Game → List Act → Game
  | g, [] => g
  | g, a :: rest => applyActs (applyAct g a) rest

def horrorOf (g : Game) (id : Nat) : Int :=
  ((findModel g id).map Model.horror).getD 0

def latchOf (g : Game) (id : Nat) : Bool :=
  ((findModel g id).map Model.horrorGainedThisRound).getD false

/-- Number of steps of the sequence at which the model's horror count
strictly increases. -/
def incCount (id : Nat) : Game → List Act → Nat
  | _, [] => 0
  | g, a :: rest =>
    (if horrorOf g id < horrorOf (applyAct g a) id then 1 else 0)
      + incCount id (applyAct g a) rest

/-- The per-step horror discipline: the latch never clears, a horror
increase (from a nonnegative value) certifies the latch flipped
false → true, the 0..5 cap is preserved, and nonnegativity is
preserved. -/
def HStep (g g' : Game) : Prop :=
  ∀ id : Nat,
    (latchOf g id = true → latchOf g' id = true)
    ∧ (0 ≤ horrorOf g id → horrorOf g id < horrorOf g' id →
        latchOf g id = false ∧ latchOf g' id = true)
    ∧ (horrorOf g id ≤ 5 → horrorOf g' id ≤ 5)
    ∧ (0 ≤ horrorOf g id → 0 ≤ horrorOf g' id)

def TW : Tables := {}

def twOut : Option BuildResult × List Nat := tryBuildModel TW "Leader" 20 []

def twr : BuildResult := twOut.1.getD ⟨{}, 0⟩

def TX : Tables := { shoot := [{ name := "big gun", points := 100 }] }

/-! ### C2: the Shoot/Fight stat table -/

/-- C2 counterexample: the claim says tier 1 Shoot/Fight costs a
nonzero amount different from tier 0; in the table tier 1 has cost `0`,
identical to tier 0 (and the same modifier `-2`). -/
theorem shootFight_tier1_cost_zero :
    (tableLookup SHOOT_FIGHT_TABLE (some 1)).cost = 0
    ∧ (tableLookup SHOOT_FIGHT_TABLE (some 0)).cost = 0
    ∧ shootMod (some 1) = shootMod (some 0)
    ∧ fightMod (some 1) = fightMod (some 0) := by decide

/-- C2 amended: for every tier in [0,3] the stat tables give exactly the
fixed values of the source: Defense/Will modifiers (-2,0,2,4) at costs
(0,2,4,8), Shoot/Fight modifiers (-2,-2,2,4) at costs (0,0,3,6) — so
tier 1 Shoot/Fight has the *same* modifier and the *same* zero cost as
tier 0, and `statPointsCost` sums the table costs. -/
theorem stat_tables_exact :
    (defenseMod (some 0) = -2 ∧ defenseMod (some 1) = 0
      ∧ defenseMod (some 2) = 2 ∧ defenseMod (some 3) = 4)
    ∧ (willMod (some 0) = -2 ∧ willMod (some 1) = 0
      ∧ willMod (some 2) = 2 ∧ willMod (some 3) = 4)
    ∧ (shootMod (some 0) = -2 ∧ shootMod (some 1) = -2
      ∧ shootMod (some 2) = 2 ∧ shootMod (some 3) = 4)
    ∧ (fightMod (some 0) = -2 ∧ fightMod (some 1) = -2
      ∧ fightMod (some 2) = 2 ∧ fightMod (some 3) = 4)
    ∧ ((tableLookup DEF_WILL_TABLE (some 0)).cost = 0
      ∧ (tableLookup DEF_WILL_TABLE (some 1)).cost = 2
      ∧ (tableLookup DEF_WILL_TABLE (some 2)).cost = 4
      ∧ (tableLookup DEF_WILL_TABLE (some 3)).cost = 8)
    ∧ ((tableLookup SHOOT_FIGHT_TABLE (some 0)).cost = 0
      ∧ (tableLookup SHOOT_FIGHT_TABLE (some 1)).cost = 0
      ∧ (tableLookup SHOOT_FIGHT_TABLE (some 2)).cost = 3
      ∧ (tableLookup SHOOT_FIGHT_TABLE (some 3)).cost = 6)
    ∧ (statPointsCost { mkUnit 0 Team.blue 0 0 with
          defense := 0, will := 0, shoot := 0, fight := 0 } = 0
      ∧ statPointsCost (mkUnit 0 Team.blue 0 0) = 4
      ∧ statPointsCost { mkUnit 0 Team.blue 0 0 with
          defense := 2, will := 2, shoot := 2, fight := 2 } = 14
      ∧ statPointsCost { mkUnit 0 Team.blue 0 0 with
          defense := 3, will := 3, shoot := 3, fight := 3 } = 28) := by decide

/-! ### C10: totality of the stat lookups -/

theorem DEF_WILL_TABLE_none {t : Int} (h : t < 0 ∨ 3 < t) :
    DEF_WILL_TABLE t = none := by
  unfold DEF_WILL_TABLE
  split_ifs with h0 h1 h2 h3 <;> first | rfl | omega

theorem SHOOT_FIGHT_TABLE_none {t : Int} (h : t < 0 ∨ 3 < t) :
    SHOOT_FIGHT_TABLE t = none := by
  unfold SHOOT_FIGHT_TABLE
  split_ifs with h0 h1 h2 h3 <;> first | rfl | omega

theorem SAVE_TARGET_BY_WILL_none {t : Int} (h : t < 0 ∨ 3 < t) :
    SAVE_TARGET_BY_WILL t = none := by
  unfold SAVE_TARGET_BY_WILL
  split_ifs with h0 h1 h2 h3 <;> first | rfl | omega

/-- C10: every stat lookup is total — any tier outside [0,3] (negative,
above 3, or the JS `undefined`, modelled as `none`) falls back to the
tier-1 table entry, so no tier value makes a lookup fail. -/
theorem stat_lookups_total (t : Int) (h : t < 0 ∨ 3 < t) :
    defenseMod (some t) = defenseMod (some 1)
    ∧ willMod (some t) = willMod (some 1)
    ∧ shootMod (some t) = shootMod (some 1)
    ∧ fightMod (some t) = fightMod (some 1)
    ∧ defenseMod none = defenseMod (some 1)
    ∧ willMod none = willMod (some 1)
    ∧ shootMod none = shootMod (some 1)
    ∧ fightMod none = fightMod (some 1)
    ∧ (∀ m : Model, m.will = t → savingThrowTarget m = 14)
    ∧ (∀ m : Model, m.defense = t → m.will = t → m.shoot = t → m.fight = t →
        statPointsCost m
          = statPointsCost { m with defense := 1, will := 1, shoot := 1, fight := 1 }) := by
  have hd := DEF_WILL_TABLE_none h
  have hs := SHOOT_FIGHT_TABLE_none h
  have hw := SAVE_TARGET_BY_WILL_none h
  refine ⟨?_, ?_, ?_, ?_, by decide, by decide, by decide, by decide, ?_, ?_⟩
  · simp [defenseMod, tableLookup, hd]; decide
  · simp [willMod, tableLookup, hd]; decide
  · simp [shootMod, tableLookup, hs]; decide
  · simp [fightMod, tableLookup, hs]; decide
  · intro m hm
    simp [savingThrowTarget, hm, hw]; decide
  · intro m h1 h2 h3 h4
    simp [statPointsCost, tableLookup, h1, h2, h3, h4, hd, hs]; decide

/-- Witness for C10 at the concrete out-of-range tier `-1`. -/
theorem stat_lookups_total_witness :
    ((-1 : Int) < 0 ∨ 3 < (-1 : Int))
    ∧ defenseMod (some (-1)) = defenseMod (some 1) :=
  ⟨Or.inl (by decide), (stat_lookups_total (-1) (Or.inl (by decide))).1⟩

/-! ### C6: initiative -/

/-- C6 counterexample: on the tied stream, `startRound` settles the tie
with a single coin draw (picking Red here), while the spec's
re-roll-in-full procedure continues rolling and awards initiative to
Blue — so ties are not resolved by re-rolling. -/
theorem initiative_tie_not_rerolled :
    (startRound gInit).activeTeam = some TEAM_RED
    ∧ specInitiativeWinner (maxWillModInTeam gInit TEAM_BLUE)
        (maxWillModInTeam gInit TEAM_RED) 2 gInit.rng = some TEAM_BLUE := by decide

theorem rngNext_models (g : Game) : (rngNext g).2.models = g.models := by
  unfold rngNext
  cases g.rng <;> rfl

theorem rngNext_grid (g : Game) : (rngNext g).2.grid = g.grid := by
  unfold rngNext
  cases g.rng <;> rfl

theorem rollDie_models (n : Nat) (g : Game) : ((rollDie n g).2).models = g.models :=
  rngNext_models g

theorem rollDie_grid (n : Nat) (g : Game) : ((rollDie n g).2).grid = g.grid :=
  rngNext_grid g

theorem roundResets_rng (g : Game) : (roundResets g).rng = g.rng := by
  unfold roundResets
  dsimp only
  split <;> rfl

theorem roundResets_grid (g : Game) : (roundResets g).grid = g.grid := by
  unfold roundResets
  dsimp only
  split <;> rfl

theorem isEmpty_map' {α β : Type} (f : α → β) (l : List α) :
    (l.map f).isEmpty = l.isEmpty := by
  cases l <;> rfl

/-- The per-round resets do not change any quantity that feeds the
initiative modifier. -/
theorem maxWillModInTeam_map (g : Game) (t : Team) (f : Model → Model)
    (hw : ∀ m, (f m).wounds = m.wounds) (ht : ∀ m, (f m).team = m.team)
    (hwi : ∀ m, (f m).will = m.will)
    (hsc : ∀ m, (f m).hasPsychicScars = m.hasPsychicScars) :
    maxWillModInTeam { g with models := g.models.map f } t = maxWillModInTeam g t := by
  have hq : ∀ m : Model, decide ((f m).wounds > 0) = decide (m.wounds > 0) := by
    intro m; rw [hw]
  have hp : ∀ m : Model, decide ((f m).team = some t) = decide (m.team = some t) := by
    intro m; rw [ht]
  unfold maxWillModInTeam livingOfTeam livingModels
  simp only [List.filter_map, Function.comp_def, hq, hp, isEmpty_map', List.foldl_map,
    hwi, hsc]

theorem maxWillModInTeam_roundResets (g : Game) (t : Team) :
    maxWillModInTeam (roundResets g) t = maxWillModInTeam g t := by
  have hL : ∀ m, ((resetLatches m).wounds = m.wounds ∧ (resetLatches m).team = m.team)
      ∧ ((resetLatches m).will = m.will
        ∧ (resetLatches m).hasPsychicScars = m.hasPsychicScars) := by
    intro m
    unfold resetLatches
    split <;> simp
  have hE : ∀ m, ((resetExhaustion m).wounds = m.wounds
        ∧ (resetExhaustion m).team = m.team)
      ∧ ((resetExhaustion m).will = m.will
        ∧ (resetExhaustion m).hasPsychicScars = m.hasPsychicScars) := by
    intro m
    unfold resetExhaustion
    split <;> simp
  have h0 : maxWillModInTeam { g with models := g.models.map resetLatches } t
      = maxWillModInTeam g t :=
    maxWillModInTeam_map g t resetLatches (fun m => ((hL m).1).1)
      (fun m => ((hL m).1).2) (fun m => ((hL m).2).1) (fun m => ((hL m).2).2)
  unfold roundResets
  dsimp only
  split
  · have h1 := maxWillModInTeam_map { g with models := g.models.map resetLatches } t
      resetExhaustion (fun m => ((hE m).1).1) (fun m => ((hE m).1).2)
      (fun m => ((hE m).2).1) (fun m => ((hE m).2).2)
    exact h1.trans h0
  · exact h0

/-- C6 amended: each team's initiative total is one d20 plus
`maxWillModInTeam` (the best Will modifier among its living models,
Psychic Scars included); the strictly higher total activates first, and
an exact tie is settled by one uniformly random coin draw — not by
re-rolling the dice. -/
theorem startRound_initiative (g : Game) (e1 e2 e3 : Nat) (rest : List Nat)
    (h : g.rng = e1 :: e2 :: e3 :: rest) :
    (startRound g).activeTeam = some (
      if (1 : Int) + (e1 % 20 : Nat) + maxWillModInTeam g TEAM_BLUE
          > (1 : Int) + (e2 % 20 : Nat) + maxWillModInTeam g TEAM_RED then TEAM_BLUE
      else if (1 : Int) + (e2 % 20 : Nat) + maxWillModInTeam g TEAM_RED
          > (1 : Int) + (e1 % 20 : Nat) + maxWillModInTeam g TEAM_BLUE then TEAM_RED
      else if e3 % 10 < 5 then TEAM_BLUE else TEAM_RED) := by
  have hrng : (roundResets g).rng = e1 :: e2 :: e3 :: rest := by
    rw [roundResets_rng, h]
  simp only [startRound, rollDie, rngNext, randLtTenths, hrng,
    maxWillModInTeam_roundResets]
  split_ifs <;> first | rfl | simp_all

/-- Witness for the amended C6 theorem on a concrete stream. -/
theorem startRound_initiative_witness :
    gInit.rng = 0 :: 0 :: 19 :: [0]
    ∧ (startRound gInit).activeTeam = some TEAM_RED := by
  refine ⟨by decide, ?_⟩
  have := startRound_initiative gInit 0 0 19 [0] (by decide)
  rw [this]
  decide

/-! ### C7: line tracing -/

/-- C7 counterexample: tracing from (0,0) to (1,2) visits (0,1), but the
reverse trace visits (1,1) instead — the two tile sets differ, so the
algorithm is not symmetric. -/
theorem traceLine_not_symmetric :
    bresenhamCells 0 0 1 2 = [(0, 0), (0, 1), (1, 2)]
    ∧ bresenhamCells 1 2 0 0 = [(1, 2), (1, 1), (0, 0)]
    ∧ ((0, 1) ∈ bresenhamCells 0 0 1 2 ∧ (0, 1) ∉ bresenhamCells 1 2 0 0) := by decide

theorem bresLoop_horiz (y sy : Int) (k : Nat) (hk : 0 < k) (sx : Int)
    (hs : sx = 1 ∨ sx = -1) :
    ∀ (j : Nat) (x : Int) (fuel : Nat), j < fuel →
      bresLoop (x + sx * (j : Int)) y (k : Int) 0 sx sy fuel x y (k : Int)
        = (List.range (j + 1)).map (fun i : Nat => (x + sx * (i : Int), y)) := by
  intro j
  induction j with
  | zero =>
    intro x fuel hf
    match fuel, hf with
    | f + 1, _ => simp [bresLoop, List.range_succ, List.range_zero]
  | succ j ih =>
    intro x fuel hf
    match fuel, hf with
    | f + 1, hf =>
      have hne : ¬(x = x + sx * ((j + 1 : Nat) : Int) ∧ y = y) := by
        intro hc
        rcases hs with h | h <;> rw [h] at hc <;> omega
      have hc1 : (2 * (k : Int) > -0) := by omega
      have hc2 : ¬(2 * (k : Int) < (k : Int)) := by omega
      rw [bresLoop]
      dsimp only
      rw [if_neg hne]
      simp only [if_pos hc1, if_neg hc2]
      rw [show ((k : Int) - 0) = (k : Int) from by ring,
        show x + sx * ((j + 1 : Nat) : Int) = (x + sx) + sx * (j : Int) from by
          push_cast; ring,
        ih (x + sx) f (by omega)]
      conv_rhs => rw [List.range_succ_eq_map, List.map_cons, List.map_map]
      refine List.cons_eq_cons.mpr ⟨by first | rfl | simp, ?_⟩
      apply List.map_congr_left
      intro i _
      simp only [Function.comp_apply, Prod.mk.injEq]
      exact ⟨by push_cast; ring, trivial⟩

theorem bresLoop_vert (x sx : Int) (k : Nat) (hk : 0 < k) (sy : Int)
    (hs : sy = 1 ∨ sy = -1) :
    ∀ (j : Nat) (y : Int) (fuel : Nat), j < fuel →
      bresLoop x (y + sy * (j : Int)) 0 (k : Int) sx sy fuel x y (-(k : Int))
        = (List.range (j + 1)).map (fun i : Nat => (x, y + sy * (i : Int))) := by
  intro j
  induction j with
  | zero =>
    intro y fuel hf
    match fuel, hf with
    | f + 1, _ => simp [bresLoop, List.range_succ, List.range_zero]
  | succ j ih =>
    intro y fuel hf
    match fuel, hf with
    | f + 1, hf =>
      have hne : ¬(x = x ∧ y = y + sy * ((j + 1 : Nat) : Int)) := by
        intro hc
        rcases hs with h | h <;> rw [h] at hc <;> omega
      have hc1 : ¬(2 * -(k : Int) > -(k : Int)) := by omega
      have hc2 : (2 * -(k : Int) < 0) := by omega
      rw [bresLoop]
      dsimp only
      rw [if_neg hne]
      simp only [if_neg hc1, if_pos hc2]
      rw [show (-(k : Int) + 0) = -(k : Int) from by ring,
        show y + sy * ((j + 1 : Nat) : Int) = (y + sy) + sy * (j : Int) from by
          push_cast; ring,
        ih (y + sy) f (by omega)]
      conv_rhs => rw [List.range_succ_eq_map, List.map_cons, List.map_map]
      refine List.cons_eq_cons.mpr ⟨by first | rfl | simp, ?_⟩
      apply List.map_congr_left
      intro i _
      simp only [Function.comp_apply, Prod.mk.injEq]
      exact ⟨trivial, by push_cast; ring⟩

theorem bresLoop_diag (k : Nat) (hk : 0 < k) (sx sy : Int)
    (hsx : sx = 1 ∨ sx = -1) (_hsy : sy = 1 ∨ sy = -1) :
    ∀ (j : Nat) (x y : Int) (fuel : Nat), j < fuel →
      bresLoop (x + sx * (j : Int)) (y + sy * (j : Int)) (k : Int) (k : Int) sx sy fuel x y 0
        = (List.range (j + 1)).map (fun i : Nat => (x + sx * (i : Int), y + sy * (i : Int))) := by
  intro j
  induction j with
  | zero =>
    intro x y fuel hf
    match fuel, hf with
    | f + 1, _ => simp [bresLoop, List.range_succ, List.range_zero]
  | succ j ih =>
    intro x y fuel hf
    match fuel, hf with
    | f + 1, hf =>
      have hne : ¬(x = x + sx * ((j + 1 : Nat) : Int)
          ∧ y = y + sy * ((j + 1 : Nat) : Int)) := by
        intro hc
        rcases hsx with h | h <;> rw [h] at hc <;> omega
      have hc1 : (2 * (0 : Int) > -(k : Int)) := by omega
      have hc2 : (2 * (0 : Int) < (k : Int)) := by omega
      rw [bresLoop]
      dsimp only
      rw [if_neg hne]
      simp only [if_pos hc1, if_pos hc2]
      rw [show ((0 : Int) - (k : Int) + (k : Int)) = 0 from by ring,
        show x + sx * ((j + 1 : Nat) : Int) = (x + sx) + sx * (j : Int) from by
          push_cast; ring,
        show y + sy * ((j + 1 : Nat) : Int) = (y + sy) + sy * (j : Int) from by
          push_cast; ring,
        ih (x + sx) (y + sy) f (by omega)]
      conv_rhs => rw [List.range_succ_eq_map, List.map_cons, List.map_map]
      refine List.cons_eq_cons.mpr ⟨by first | rfl | simp, ?_⟩
      apply List.map_congr_left
      intro i _
      simp only [Function.comp_apply, Prod.mk.injEq]
      exact ⟨by push_cast; ring, by push_cast; ring⟩

theorem bresenhamCells_horiz (x0 x1 y : Int) :
    bresenhamCells x0 y x1 y
      = (List.range ((x1 - x0).natAbs + 1)).map
          (fun i : Nat => (x0 + (if x0 < x1 then (1 : Int) else -1) * (i : Int), y)) := by
  unfold bresenhamCells
  dsimp only
  rw [show y - y = 0 from by ring]
  simp only [Int.natAbs_zero, Nat.cast_zero, add_zero, Int.sub_zero]
  by_cases hk : (x1 - x0).natAbs = 0
  · have hx : x1 = x0 := by omega
    subst hx
    simp [bresLoop, List.range_succ, List.range_zero]
  · by_cases hlt : x0 < x1
    · rw [if_pos hlt]
      have hx1 : x1 = x0 + 1 * ((x1 - x0).natAbs : Int) := by omega
      conv_lhs => rw [hx1]
      refine bresLoop_horiz y _ _ ?_ 1 (Or.inl rfl) _ x0 _ ?_ <;> omega
    · rw [if_neg hlt]
      have hx1 : x1 = x0 + (-1) * ((x1 - x0).natAbs : Int) := by omega
      conv_lhs => rw [hx1]
      refine bresLoop_horiz y _ _ ?_ (-1) (Or.inr rfl) _ x0 _ ?_ <;> omega

theorem bresenhamCells_vert (x y0 y1 : Int) :
    bresenhamCells x y0 x y1
      = (List.range ((y1 - y0).natAbs + 1)).map
          (fun i : Nat => (x, y0 + (if y0 < y1 then (1 : Int) else -1) * (i : Int))) := by
  unfold bresenhamCells
  dsimp only
  rw [show x - x = 0 from by ring]
  simp only [Int.natAbs_zero, Nat.cast_zero, Int.zero_add, zero_add, Int.zero_sub,
    zero_sub]
  by_cases hk : (y1 - y0).natAbs = 0
  · have hy : y1 = y0 := by omega
    subst hy
    simp [bresLoop, List.range_succ, List.range_zero]
  · by_cases hlt : y0 < y1
    · rw [if_pos hlt]
      have hy1 : y1 = y0 + 1 * ((y1 - y0).natAbs : Int) := by omega
      conv_lhs => rw [hy1]
      refine bresLoop_vert x _ _ ?_ 1 (Or.inl rfl) _ y0 _ ?_ <;> omega
    · rw [if_neg hlt]
      have hy1 : y1 = y0 + (-1) * ((y1 - y0).natAbs : Int) := by omega
      conv_lhs => rw [hy1]
      refine bresLoop_vert x _ _ ?_ (-1) (Or.inr rfl) _ y0 _ ?_ <;> omega

theorem bresenhamCells_diag (x0 y0 x1 y1 : Int)
    (h : (x1 - x0).natAbs = (y1 - y0).natAbs) :
    bresenhamCells x0 y0 x1 y1
      = (List.range ((x1 - x0).natAbs + 1)).map
          (fun i : Nat => (x0 + (if x0 < x1 then (1 : Int) else -1) * (i : Int),
            y0 + (if y0 < y1 then (1 : Int) else -1) * (i : Int))) := by
  unfold bresenhamCells
  dsimp only
  rw [← h, show ((x1 - x0).natAbs : Int) - ((x1 - x0).natAbs : Int) = 0 from by ring]
  by_cases hk : (x1 - x0).natAbs = 0
  · have hx : x1 = x0 := by omega
    have hy : y1 = y0 := by omega
    subst hx
    subst hy
    simp [bresLoop, List.range_succ, List.range_zero]
  · by_cases hltx : x0 < x1 <;> by_cases hlty : y0 < y1
    · rw [if_pos hltx, if_pos hlty]
      have hx1 : x1 = x0 + 1 * ((x1 - x0).natAbs : Int) := by omega
      have hy1 : y1 = y0 + 1 * ((x1 - x0).natAbs : Int) := by omega
      conv_lhs => rw [hx1, hy1]
      refine bresLoop_diag _ ?_ 1 1 (Or.inl rfl) (Or.inl rfl) _ x0 y0 _ ?_ <;> omega
    · rw [if_pos hltx, if_neg hlty]
      have hx1 : x1 = x0 + 1 * ((x1 - x0).natAbs : Int) := by omega
      have hy1 : y1 = y0 + (-1) * ((x1 - x0).natAbs : Int) := by omega
      conv_lhs => rw [hx1, hy1]
      refine bresLoop_diag _ ?_ 1 (-1) (Or.inl rfl) (Or.inr rfl) _ x0 y0 _ ?_ <;> omega
    · rw [if_neg hltx, if_pos hlty]
      have hx1 : x1 = x0 + (-1) * ((x1 - x0).natAbs : Int) := by omega
      have hy1 : y1 = y0 + 1 * ((x1 - x0).natAbs : Int) := by omega
      conv_lhs => rw [hx1, hy1]
      refine bresLoop_diag _ ?_ (-1) 1 (Or.inr rfl) (Or.inl rfl) _ x0 y0 _ ?_ <;> omega
    · rw [if_neg hltx, if_neg hlty]
      have hx1 : x1 = x0 + (-1) * ((x1 - x0).natAbs : Int) := by omega
      have hy1 : y1 = y0 + (-1) * ((x1 - x0).natAbs : Int) := by omega
      conv_lhs => rw [hx1, hy1]
      refine bresLoop_diag _ ?_ (-1) (-1) (Or.inr rfl) (Or.inr rfl) _ x0 y0 _ ?_ <;> omega

/-- C7 amended: the trace is symmetric for horizontal, vertical and
exact-diagonal segments — for those, `bresenhamCells` from A to B and
from B to A visit the same tile set; for other slopes the sets can
differ (see the counterexample). -/
theorem traceLine_symmetric_cases (x0 y0 x1 y1 : Int)
    (h : x0 = x1 ∨ y0 = y1 ∨ (x1 - x0).natAbs = (y1 - y0).natAbs) :
    ∀ c, c ∈ bresenhamCells x0 y0 x1 y1 ↔ c ∈ bresenhamCells x1 y1 x0 y0 := by
  intro c
  rcases h with h | h | h
  · subst h
    rw [bresenhamCells_vert, bresenhamCells_vert]
    simp only [List.mem_map, List.mem_range]
    constructor
    · rintro ⟨i, hi, rfl⟩
      refine ⟨(y1 - y0).natAbs - i, by omega, ?_⟩
      simp only [Prod.mk.injEq]
      exact ⟨trivial, by split_ifs <;> omega⟩
    · rintro ⟨i, hi, rfl⟩
      refine ⟨(y0 - y1).natAbs - i, by omega, ?_⟩
      simp only [Prod.mk.injEq]
      exact ⟨trivial, by split_ifs <;> omega⟩
  · subst h
    rw [bresenhamCells_horiz, bresenhamCells_horiz]
    simp only [List.mem_map, List.mem_range]
    constructor
    · rintro ⟨i, hi, rfl⟩
      refine ⟨(x1 - x0).natAbs - i, by omega, ?_⟩
      simp only [Prod.mk.injEq]
      exact ⟨by split_ifs <;> omega, trivial⟩
    · rintro ⟨i, hi, rfl⟩
      refine ⟨(x0 - x1).natAbs - i, by omega, ?_⟩
      simp only [Prod.mk.injEq]
      exact ⟨by split_ifs <;> omega, trivial⟩
  · rw [bresenhamCells_diag _ _ _ _ h, bresenhamCells_diag _ _ _ _ (by omega)]
    simp only [List.mem_map, List.mem_range]
    constructor
    · rintro ⟨i, hi, rfl⟩
      refine ⟨(x0 - x1).natAbs - i, by omega, ?_⟩
      simp only [Prod.mk.injEq]
      exact ⟨by split_ifs <;> omega, by split_ifs <;> omega⟩
    · rintro ⟨i, hi, rfl⟩
      refine ⟨(x1 - x0).natAbs - i, by omega, ?_⟩
      simp only [Prod.mk.injEq]
      exact ⟨by split_ifs <;> omega, by split_ifs <;> omega⟩

/-- Witness for the amended C7 theorem on a concrete diagonal. -/
theorem traceLine_symmetric_cases_witness :
    ((0 : Int) = 3 ∨ (0 : Int) = 3 ∨ ((3 : Int) - 0).natAbs = ((3 : Int) - 0).natAbs)
    ∧ ((1, 1) ∈ bresenhamCells 0 0 3 3 ↔ (1, 1) ∈ bresenhamCells 3 3 0 0) :=
  ⟨Or.inr (Or.inr rfl),
    traceLine_symmetric_cases 0 0 3 3 (Or.inr (Or.inr rfl)) (1, 1)⟩

/-! ### C3: heavy and light cover stack additively -/

/-- C3 counterexample: heavy cover is on the path *and* the defender
touches an obstacle, and the applied penalty is −4 = (−3) + (−1), not
exactly −3 — the light-cover penalty is added on top of heavy cover. -/
theorem heavy_and_light_cover_stack :
    (lineOfSight gC3.grid atkC3 defC3).heavyThrough = true
    ∧ touchingObstacle gC3.grid defC3 = true
    ∧ (losAndCover gC3 atkC3 defC3).ok = true
    ∧ (losAndCover gC3 atkC3 defC3).coverPenalty = -4 := by decide

/-- C3 amended: when the sightline is not blocked the cover penalty is
the *sum* of three independent contributions — heavy cover on the path
(−3), corner-clip light cover (−1) and touching-an-obstacle light cover
(−1, suppressed for Monstrous defenders); in particular heavy cover does
not exclude light cover: with heavy cover present and any light-cover
source, the total is at most −4.  Heavy alone gives exactly −3. -/
theorem cover_penalty_additive (g : Game) (a d : Model)
    (hb : (lineOfSight g.grid a d).blocked = false) :
    (losAndCover g a d).ok = true
    ∧ (losAndCover g a d).coverPenalty
        = (if (lineOfSight g.grid a d).heavyThrough then -3 else 0)
          + (if (lineOfSight g.grid a d).cornerClipLight then -1 else 0)
          + terrainCoverPenalty g d
    ∧ ((lineOfSight g.grid a d).heavyThrough = true →
        ((lineOfSight g.grid a d).cornerClipLight = true
          ∨ (touchingObstacle g.grid d = true ∧ modelHas d "monstrous" = false)) →
        (losAndCover g a d).coverPenalty ≤ -4)
    ∧ ((lineOfSight g.grid a d).heavyThrough = true →
        (lineOfSight g.grid a d).cornerClipLight = false →
        touchingObstacle g.grid d = false →
        (losAndCover g a d).coverPenalty = -3) := by
  refine ⟨by simp [losAndCover, hb], by simp [losAndCover, hb], ?_, ?_⟩
  · intro h1 h2
    simp only [losAndCover, hb, Bool.false_eq_true, if_false, h1, if_true,
      terrainCoverPenalty]
    rcases h2 with h2 | ⟨h2, h3⟩ <;> split_ifs <;> simp_all
  · intro h1 h2 h3
    simp only [losAndCover, hb, Bool.false_eq_true, if_false, h1, h2, h3, if_true,
      terrainCoverPenalty]
    split_ifs <;> simp_all

/-- Witness for the amended C3 theorem at the concrete stacked game. -/
theorem cover_penalty_additive_witness :
    (lineOfSight gC3.grid atkC3 defC3).blocked = false
    ∧ (losAndCover gC3 atkC3 defC3).coverPenalty ≤ -4 :=
  ⟨by decide,
    (cover_penalty_additive gC3 atkC3 defC3 (by decide)).2.2.1 (by decide)
      (Or.inr ⟨by decide, by decide⟩)⟩

/-! ### C5: heavy cover, the target tile, and natural 20 -/

/-- C5 counterexample: the LoS scan excludes the target's own tile, so a
defender standing on a HeavyCover tile on the line gets cover penalty 0,
not −3; and the natural 20 (first stream element 19 → d20 = 20) deals
its +1 damage with *no* saving throw — the defender drops from 4 wounds
to 0 and the second stream element is never drawn. -/
theorem standing_on_heavy_gives_no_cover :
    tileAt gC5.grid defC5.tx defC5.ty = TILE_HEAVY
    ∧ (losAndCover gC5 atkC5 defC5).coverPenalty = 0
    ∧ (lineOfSight gC5.grid atkC5 defC5).heavyThrough = false
    ∧ (resolveShoot gC5 1 2).2.ok = true
    ∧ ((findModel (resolveShoot gC5 1 2).1 2).map Model.wounds).getD 99 = 0
    ∧ (resolveShoot gC5 1 2).1.rng = [15] := by decide

/-- C5 amended: with a HeavyCover tile strictly between attacker and
target, the cover penalty is −3 and a natural 20, while still an
automatic hit, does not deny the saving throw: the save die is drawn
(stream fully consumed) and a passing save negates all damage. -/
theorem heavy_between_cover_and_save :
    (losAndCover gC5b atkC5 defC5b).coverPenalty = -3
    ∧ (lineOfSight gC5b.grid atkC5 defC5b).heavyThrough = true
    ∧ (resolveShoot gC5b 1 2).2.ok = true
    ∧ ((findModel (resolveShoot gC5b 1 2).1 2).map Model.wounds).getD 99 = 4
    ∧ (resolveShoot gC5b 1 2).1.rng = [] := by decide

/-! ### C4: Disengage ordering -/

/-- C4 counterexample: the disengager is engaged, but because the chosen
relocation tile (15,5) is out of range the whole call is rejected with
the state — including the untouched random stream — exactly as before:
no opportunity attack was resolved before (or after) the legality
check. -/
theorem disengage_illegal_no_op_attack :
    engagedEnemies gC4 mDis ≠ []
    ∧ (resolveDisengage gC4 1 15 5).2 = ⟨false, "Out of range"⟩
    ∧ (resolveDisengage gC4 1 15 5).1 = gC4 := by decide

/-- C4 amended: `resolveDisengage` evaluates the relocation's legality
*first*: every rejection (including out-of-range, blocked or
still-engaged destinations) returns the state unchanged with no
opportunity attack; only once the relocation is validated does the first
adjacent enemy's free opportunity attack resolve — against the
disengager still at its original position — followed by the move and the
action cost. -/
theorem disengage_validates_before_op_attack (g : Game) (id : Nat) (x y : Int) :
    ((resolveDisengage g id x y).2.ok = false → (resolveDisengage g id x y).1 = g)
    ∧ (∀ m att rest, findModel g id = some m →
        ¬ m.actionsRemaining ≤ 0 →
        engagedEnemies g m = att :: rest →
        (tilesWithinChebyshev m.tx m.ty MOVE_PER_ACTION).any
          (fun p => (p.1 = x : Bool) && (p.2 = y : Bool)) = true →
        canStepOn g x y = true →
        ((livingModels g).any fun e =>
          (e.team ≠ m.team : Bool) && e.deployed && isAdjacentPos x y e.tx e.ty) = false →
        resolveDisengage g id x y
          = (spendAction (moveModel ((resolveFightAttack g att.id m.id true).1) id x y)
              id "Disengage", ⟨true, ""⟩)) := by
  constructor
  · have key : ∀ r : Game × Outcome, resolveDisengage g id x y = r →
        r.2.ok = false → r.1 = g := by
      intro r hr
      unfold resolveDisengage at hr
      dsimp only at hr
      repeat' split at hr
      all_goals subst hr
      all_goals intro h
      all_goals first
        | rfl
        | simp at h
    exact key _ rfl
  · intro m att rest hm hact heng hopt hstep hadj
    unfold resolveDisengage
    rw [hm]
    dsimp only
    rw [if_neg hact, heng]
    dsimp only
    rw [hopt, hstep, hadj]
    simp

/-- Witness for the amended C4 theorem. -/
theorem disengage_validates_witness :
    ((resolveDisengage gC4w 1 5 3).2.ok = false → (resolveDisengage gC4w 1 5 3).1 = gC4w)
    ∧ resolveDisengage gC4w 1 5 3
        = (spendAction (moveModel ((resolveFightAttack gC4w 2 1 true).1) 1 5 3)
            1 "Disengage", ⟨true, ""⟩) := by
  have h := disengage_validates_before_op_attack gC4w 1 5 3
  exact ⟨h.1, h.2 mDis eDis [] (by decide) (by decide) (by decide) (by decide)
    (by decide) (by decide)⟩

/-! ### C1: rejected actions and state mutation -/

theorem resolveHitDamageAndSave_ok (g : Game) (aid did : Nat) (w : Option Weapon)
    (n : Bool) (l : LosCover) : (resolveHitDamageAndSave g aid did w n l).2.ok = true := by
  unfold resolveHitDamageAndSave
  dsimp only
  repeat' split
  all_goals rfl

theorem resolveMeleeDamageAndSave_ok (g : Game) (aid did : Nat) (w : Option Weapon)
    (n : Bool) : (resolveMeleeDamageAndSave g aid did w n).2.ok = true := by
  unfold resolveMeleeDamageAndSave
  dsimp only
  repeat' split
  all_goals rfl

theorem shootReroll_ok (g : Game) (aid did : Nat) (w : Option Weapon)
    (tAC mS : Int) (l : LosCover) : (shootReroll g aid did w tAC mS l).2.ok = true := by
  unfold shootReroll
  dsimp only
  repeat' split
  all_goals first | rfl | exact resolveHitDamageAndSave_ok _ _ _ _ _ _

theorem shootRolls_ok (g : Game) (aid did : Nat) (a d : Model) (l : LosCover) :
    (shootRolls g aid did a d l).2.ok = true := by
  unfold shootRolls
  dsimp only
  repeat' split
  all_goals first
    | rfl
    | exact resolveHitDamageAndSave_ok _ _ _ _ _ _
    | exact shootReroll_ok _ _ _ _ _ _ _

theorem fightReroll_ok (g : Game) (aid did : Nat) (w : Option Weapon)
    (tAC mS : Int) : (fightReroll g aid did w tAC mS).2.ok = true := by
  unfold fightReroll
  dsimp only
  repeat' split
  all_goals first | rfl | exact resolveMeleeDamageAndSave_ok _ _ _ _ _

theorem fightRolls_ok (g : Game) (aid did : Nat) (free : Bool) (a d : Model) :
    (fightRolls g aid did free a d).2.ok = true := by
  unfold fightRolls
  dsimp only
  repeat' split
  all_goals first
    | rfl
    | exact resolveMeleeDamageAndSave_ok _ _ _ _ _
    | exact fightReroll_ok _ _ _ _ _ _

theorem spendAction_grid (g : Game) (id : Nat) (r : String) :
    (spendAction g id r).grid = g.grid := rfl

theorem gainHorror_grid (g : Game) (id : Nat) (a : Int) :
    (gainHorror g id a).grid = g.grid := by
  unfold gainHorror
  repeat' split
  all_goals rfl

theorem horrorTest_models (g : Game) (m : Model) :
    ((horrorTest g m).2).models = g.models := rngNext_models g

theorem horrorTest_grid (g : Game) (m : Model) :
    ((horrorTest g m).2).grid = g.grid := rngNext_grid g

theorem coreView_updModel (g : Game) (id : Nat) (f : Model → Model)
    (h : ∀ m, coreView (f m) = coreView m) :
    (updModel g id f).models.map coreView = g.models.map coreView := by
  unfold updModel
  dsimp only
  rw [List.map_map]
  apply List.map_congr_left
  intro m _
  simp only [Function.comp_apply]
  split
  · exact h m
  · rfl

theorem coreView_spendAction (g : Game) (id : Nat) (r : String) :
    (spendAction g id r).models.map coreView = g.models.map coreView :=
  coreView_updModel _ _ _ (fun _ => rfl)

theorem coreView_gainHorror (g : Game) (id : Nat) (a : Int) :
    (gainHorror g id a).models.map coreView = g.models.map coreView := by
  unfold gainHorror
  repeat' split
  all_goals first
    | rfl
    | exact coreView_updModel _ _ _ (fun _ => rfl)

/-- C1 amended: every resolver rejection (`ok = false`) leaves the game
state exactly as it was, with two exceptions faithful to the source:
(1) a Shoot rejected for a missing required Aim streak (`"Needs Aim"`)
is issued only *after* the target has been marked suppressed — the
result is exactly the original state with the target's suppressed flag
set; (2) a Move rejected because a suppressed mover failed its Horror
Test has consumed the action, reset the mover's aim state and possibly
added a horror token — but every model's position, wounds, suppressed
flag and deployment, and the grid, are unchanged. -/
theorem rejected_actions_no_mutation (g : Game) (a b : Nat) (x y : Int) :
    ((resolveCharge g a b).2.ok = false → (resolveCharge g a b).1 = g)
    ∧ ((resolveAim g a).2.ok = false → (resolveAim g a).1 = g)
    ∧ ((resolveRecover g a).2.ok = false → (resolveRecover g a).1 = g)
    ∧ ((resolveFightAttack g a b false).2.ok = false →
        (resolveFightAttack g a b false).1 = g)
    ∧ ((resolveDisengage g a x y).2.ok = false → (resolveDisengage g a x y).1 = g)
    ∧ ((resolveShoot g a b).2.ok = false →
        (resolveShoot g a b).1 = g
        ∨ ((resolveShoot g a b).2.reason = "Needs Aim"
          ∧ (resolveShoot g a b).1
              = updModel g b (fun t => { t with suppressed := true })))
    ∧ ((resolveMove g a x y).2.ok = false →
        (resolveMove g a x y).1.grid = g.grid
        ∧ (resolveMove g a x y).1.models.map coreView = g.models.map coreView
        ∧ ((resolveMove g a x y).2.reason = "Suppressed and failed horror test"
          ∨ (resolveMove g a x y).1.models = g.models)) := by
  have hAtt : ∀ (g' : Game) (id : Nat) (m : Model) (u v : Int),
      (moveAttempt g' id m u v).2.ok = false → (moveAttempt g' id m u v).1 = g' := by
    intro g' id m u v
    unfold moveAttempt
    dsimp only
    repeat' split
    all_goals intro h
    all_goals first | rfl | exact absurd h (by simp)
  refine ⟨?_, ?_, ?_, ?_, ?_, ?_, ?_⟩
  · unfold resolveCharge
    try dsimp only
    repeat' split
    all_goals intro h
    all_goals first | rfl | exact absurd h (by simp)
  · unfold resolveAim
    try dsimp only
    repeat' split
    all_goals intro h
    all_goals first | rfl | exact absurd h (by simp)
  · unfold resolveRecover
    try dsimp only
    repeat' split
    all_goals intro h
    all_goals first | rfl | exact absurd h (by simp)
  · unfold resolveFightAttack
    try dsimp only
    repeat' split
    all_goals intro h
    all_goals first | rfl | exact absurd h (by simp [fightRolls_ok])
  · unfold resolveDisengage
    try dsimp only
    repeat' split
    all_goals intro h
    all_goals first | rfl | exact absurd h (by simp)
  · unfold resolveShoot
    try dsimp only
    repeat' split
    all_goals intro h
    all_goals first
      | exact Or.inl rfl
      | exact Or.inr ⟨rfl, rfl⟩
      | exact absurd h (by simp [shootRolls_ok])
  · unfold resolveMove
    try dsimp only
    repeat' split
    all_goals intro h
    all_goals first
      | exact ⟨rfl, rfl, Or.inr rfl⟩
      | (refine ⟨?_, ?_, Or.inl rfl⟩ <;>
          simp only [spendAction_grid, gainHorror_grid, horrorTest_grid,
            coreView_spendAction, coreView_gainHorror, horrorTest_models])
      | (refine ⟨?_, ?_, Or.inr ?_⟩ <;>
          simp only [hAtt _ _ _ _ _ h, horrorTest_grid, horrorTest_models])

/-- C1 counterexample: a Shoot with a rocket launcher and no Aim streak
is rejected as illegal ("Needs Aim"), yet the target — unsuppressed
before the call — is left suppressed: the rejection did not leave the
state unchanged. -/
theorem shoot_needs_aim_rejection_mutates :
    (resolveShoot gC1 1 2).2 = ⟨false, "Needs Aim"⟩
    ∧ defC1.suppressed = false
    ∧ ((findModel (resolveShoot gC1 1 2).1 2).map Model.suppressed).getD false = true
    ∧ (resolveShoot gC1 1 2).1 ≠ gC1 := by decide

/-- Witness for the amended C1 theorem: the same rejected rocket-launcher
Shoot, with its hypothesis discharged concretely. -/
theorem rejected_actions_no_mutation_witness :
    (resolveShoot gC1 1 2).2.ok = false
    ∧ ((resolveShoot gC1 1 2).1 = gC1
      ∨ ((resolveShoot gC1 1 2).2.reason = "Needs Aim"
        ∧ (resolveShoot gC1 1 2).1
            = updModel gC1 2 (fun t => { t with suppressed := true }))) :=
  ⟨by decide, (rejected_actions_no_mutation gC1 1 2 0 0).2.2.2.2.2.1 (by decide)⟩

/-! ### C8: horror cap and the once-per-round latch -/

theorem hstep_rfl (g : Game) : HStep g g :=
  fun _ => ⟨fun h => h, fun _ h => absurd h (lt_irrefl _), fun h => h, fun h => h⟩

theorem hstep_trans {g1 g2 g3 : Game} (h12 : HStep g1 g2) (h23 : HStep g2 g3) :
    HStep g1 g3 := by
  intro id
  obtain ⟨l12, i12, c12, n12⟩ := h12 id
  obtain ⟨l23, i23, c23, n23⟩ := h23 id
  refine ⟨fun h => l23 (l12 h), ?_, fun h => c23 (c12 h), fun h => n23 (n12 h)⟩
  intro h0 hlt
  by_cases h2 : horrorOf g1 id < horrorOf g2 id
  · obtain ⟨hf, ht⟩ := i12 h0 h2
    exact ⟨hf, l23 ht⟩
  · have h3 : horrorOf g2 id < horrorOf g3 id := by omega
    obtain ⟨hf, ht⟩ := i23 (n12 h0) h3
    refine ⟨?_, ht⟩
    by_cases hl : latchOf g1 id = true
    · exact absurd (l12 hl) (by simp [hf])
    · simpa using hl

theorem hstep_of_models_eq {g g' : Game} (h : g'.models = g.models) : HStep g g' := by
  intro id
  unfold latchOf horrorOf findModel
  rw [h]
  exact ⟨fun h => h, fun _ h => absurd h (lt_irrefl _), fun h => h, fun h => h⟩

theorem find?_id_map (u : Model → Model) (hid : ∀ m, (u m).id = m.id) (j : Nat)
    (l : List Model) :
    (l.map u).find? (fun m => m.id = j) = (l.find? (fun m => m.id = j)).map u := by
  induction l with
  | nil => rfl
  | cons m rest ih =>
    by_cases h : m.id = j
    · rw [List.map_cons,
        List.find?_cons_of_pos _ (by simp [hid, h]),
        List.find?_cons_of_pos _ (by simp [h]),
        Option.map_some']
    · rw [List.map_cons,
        List.find?_cons_of_neg _ (by simp [hid, h]),
        List.find?_cons_of_neg _ (by simp [h]),
        ih]

theorem findModel_updModel (g : Game) (i : Nat) (f : Model → Model)
    (hid : ∀ m, (f m).id = m.id) (j : Nat) :
    findModel (updModel g i f) j
      = (findModel g j).map (fun m => if m.id = i then f m else m) := by
  unfold findModel updModel
  dsimp only
  exact find?_id_map _ (fun m => by split <;> first | rw [hid] | rfl) j g.models

theorem latchOf_updModel (g : Game) (i : Nat) (f : Model → Model)
    (hid : ∀ m, (f m).id = m.id)
    (hl : ∀ m, (f m).horrorGainedThisRound = m.horrorGainedThisRound) (j : Nat) :
    latchOf (updModel g i f) j = latchOf g j := by
  unfold latchOf
  rw [findModel_updModel g i f hid]
  cases findModel g j with
  | none => rfl
  | some m =>
    show (if m.id = i then f m else m).horrorGainedThisRound = m.horrorGainedThisRound
    split
    · rw [hl]
    · rfl

theorem horrorOf_updModel (g : Game) (i : Nat) (f : Model → Model)
    (hid : ∀ m, (f m).id = m.id)
    (hh : ∀ m, (f m).horror = m.horror) (j : Nat) :
    horrorOf (updModel g i f) j = horrorOf g j := by
  unfold horrorOf
  rw [findModel_updModel g i f hid]
  cases findModel g j with
  | none => rfl
  | some m =>
    show (if m.id = i then f m else m).horror = m.horror
    split
    · rw [hh]
    · rfl

theorem horrorOf_updModel_le (g : Game) (i : Nat) (f : Model → Model)
    (hid : ∀ m, (f m).id = m.id)
    (hh : ∀ m, (f m).horror ≤ m.horror) (j : Nat) :
    horrorOf (updModel g i f) j ≤ horrorOf g j := by
  unfold horrorOf
  rw [findModel_updModel g i f hid]
  cases findModel g j with
  | none => exact le_refl _
  | some m =>
    show (if m.id = i then f m else m).horror ≤ m.horror
    split
    · exact hh m
    · exact le_refl _

/-- An update that does not touch horror or the latch is horror-safe. -/
theorem hstep_updModel_keep (g : Game) (i : Nat) (f : Model → Model)
    (hid : ∀ m, (f m).id = m.id) (hh : ∀ m, (f m).horror = m.horror)
    (hl : ∀ m, (f m).horrorGainedThisRound = m.horrorGainedThisRound) :
    HStep g (updModel g i f) := by
  intro j
  rw [latchOf_updModel g i f hid hl, horrorOf_updModel g i f hid hh]
  exact ⟨fun h => h, fun _ h => absurd h (lt_irrefl _), fun h => h, fun h => h⟩

/-- An update that maps horror to a nonnegative value that is at most
the old horror (or exactly 0) and keeps the latch is horror-safe. -/
theorem hstep_updModel_dec (g : Game) (i : Nat) (f : Model → Model)
    (hid : ∀ m, (f m).id = m.id)
    (hh : ∀ m, 0 ≤ (f m).horror ∧ ((f m).horror ≤ m.horror ∨ (f m).horror = 0))
    (hl : ∀ m, (f m).horrorGainedThisRound = m.horrorGainedThisRound) :
    HStep g (updModel g i f) := by
  intro j
  rw [latchOf_updModel g i f hid hl]
  unfold horrorOf
  rw [findModel_updModel g i f hid]
  cases hF : findModel g j with
  | none =>
    exact ⟨fun h => h, fun _ h => absurd h (lt_irrefl _), fun h => h, fun h => h⟩
  | some m =>
    simp only [Option.map_some', Option.getD_some]
    split
    · obtain ⟨h0, hd⟩ := hh m
      exact ⟨fun h => h, fun h1 h2 => absurd h2 (by omega), fun h => by omega,
        fun _ => h0⟩
    · exact ⟨fun h => h, fun _ h => absurd h (lt_irrefl _), fun h => h, fun h => h⟩

theorem hstep_gainHorror (g : Game) (i : Nat) (a : Int) :
    HStep g (gainHorror g i a) := by
  unfold gainHorror
  split
  · exact hstep_rfl g
  · cases hF : findModel g i with
    | none => exact hstep_rfl g
    | some m =>
      dsimp only
      split
      · exact hstep_rfl g
      · rename_i hamt hlatch
        intro j
        unfold latchOf horrorOf
        rw [findModel_updModel g i
          (fun m' => { m' with horror := clamp (m'.horror + a) 0 MAX_HORROR,
                               horrorGainedThisRound := true })
          (fun _ => rfl)]
        cases hFj : findModel g j with
        | none =>
          exact ⟨fun h => h, fun _ h => absurd h (lt_irrefl _), fun h => h, fun h => h⟩
        | some m' =>
          simp only [Option.map_some', Option.getD_some]
          by_cases hmi : m'.id = i
          · have hji : j = i := by
              have := List.find?_some hFj
              simp at this
              omega
            subst hji
            rw [hF] at hFj
            injection hFj with hmm
            subst hmm
            rw [if_pos hmi]
            refine ⟨fun _ => rfl, fun _ _ => ⟨by simpa using hlatch, rfl⟩, ?_, ?_⟩
            all_goals intro h2
            all_goals unfold clamp MAX_HORROR
            all_goals dsimp only
            all_goals omega
          · rw [if_neg hmi]
            exact ⟨fun h => h, fun _ h => absurd h (lt_irrefl _), fun h => h, fun h => h⟩

theorem hstep_spendAction (g : Game) (id : Nat) (r : String) :
    HStep g (spendAction g id r) :=
  hstep_updModel_keep _ _ _ (fun _ => rfl) (fun _ => rfl) (fun _ => rfl)

theorem hstep_moveModel (g : Game) (id : Nat) (x y : Int) :
    HStep g (moveModel g id x y) :=
  hstep_updModel_keep _ _ _ (fun _ => rfl) (fun _ => rfl) (fun _ => rfl)

theorem hstep_applyDamage (g : Game) (id : Nat) (d : Int) :
    HStep g (applyDamage g id d) := by
  apply hstep_updModel_keep <;> intro m <;> dsimp only <;> split <;> rfl

theorem hstep_rollDie (n : Nat) (g : Game) : HStep g ((rollDie n g).2) :=
  hstep_of_models_eq (rollDie_models n g)

theorem hstep_horrorTest (g : Game) (m : Model) : HStep g ((horrorTest g m).2) :=
  hstep_of_models_eq (rngNext_models g)

theorem hstep_resolveHitDamageAndSave (g : Game) (aid did : Nat) (w : Option Weapon)
    (n : Bool) (l : LosCover) : HStep g (resolveHitDamageAndSave g aid did w n l).1 := by
  unfold resolveHitDamageAndSave
  dsimp only
  repeat' split
  all_goals first
    | with_reducible exact hstep_rfl g
    | with_reducible exact hstep_applyDamage _ _ _
    | with_reducible exact hstep_rollDie 20 g
    | with_reducible exact hstep_trans (hstep_rollDie 20 g) (hstep_applyDamage _ _ _)

theorem hstep_resolveMeleeDamageAndSave (g : Game) (aid did : Nat) (w : Option Weapon)
    (n : Bool) : HStep g (resolveMeleeDamageAndSave g aid did w n).1 := by
  unfold resolveMeleeDamageAndSave
  dsimp only
  repeat' split
  all_goals first
    | with_reducible exact hstep_rfl g
    | with_reducible exact hstep_rollDie 20 g
    | with_reducible exact hstep_trans (hstep_rollDie 20 g) (hstep_applyDamage _ _ _)

theorem hstep_shootReroll (g : Game) (aid did : Nat) (w : Option Weapon)
    (tAC mS : Int) (l : LosCover) : HStep g (shootReroll g aid did w tAC mS l).1 := by
  have h5 : HStep g (updModel g aid (fun m => { m with rerollShootUsed := true })) :=
    hstep_updModel_keep _ _ _ (fun _ => rfl) (fun _ => rfl) (fun _ => rfl)
  have h6 : HStep g ((rollDie 20 (updModel g aid
      (fun m => { m with rerollShootUsed := true }))).2) :=
    hstep_trans h5 (hstep_rollDie 20 _)
  unfold shootReroll
  dsimp only
  repeat' split
  all_goals first
    | with_reducible exact h6
    | with_reducible exact hstep_trans h6 (hstep_resolveHitDamageAndSave _ _ _ _ _ _)

theorem hstep_shootRolls (g : Game) (aid did : Nat) (a d : Model) (l : LosCover) :
    HStep g (shootRolls g aid did a d l).1 := by
  have h4 : HStep g (spendAction (updModel ((rollDie 20 g).2) aid
      (fun m => { m with aimBonus := 0, aimConsecutive := 0 })) aid "Shoot") := by
    refine hstep_trans ?_ (hstep_spendAction _ _ _)
    refine hstep_trans (hstep_rollDie 20 g) ?_
    exact hstep_updModel_keep _ _ _ (fun _ => rfl) (fun _ => rfl) (fun _ => rfl)
  unfold shootRolls
  dsimp only
  repeat' split
  all_goals first
    | with_reducible exact h4
    | with_reducible exact hstep_trans h4 (hstep_resolveHitDamageAndSave _ _ _ _ _ _)
    | with_reducible exact hstep_trans h4 (hstep_shootReroll _ _ _ _ _ _ _)

theorem hstep_resolveShoot (g : Game) (aid did : Nat) :
    HStep g (resolveShoot g aid did).1 := by
  have hs : HStep g (updModel g did (fun t => { t with suppressed := true })) :=
    hstep_updModel_keep _ _ _ (fun _ => rfl) (fun _ => rfl) (fun _ => rfl)
  unfold resolveShoot
  dsimp only
  repeat' split
  all_goals first
    | with_reducible exact hstep_rfl g
    | with_reducible exact hs
    | with_reducible exact hstep_trans hs (hstep_shootRolls _ _ _ _ _ _)

theorem hstep_fightReroll (g : Game) (aid did : Nat) (w : Option Weapon)
    (tAC mS : Int) : HStep g (fightReroll g aid did w tAC mS).1 := by
  have h3 : HStep g ((rollDie 20 (updModel g aid
      (fun m => { m with rerollFightUsed := true }))).2) := by
    refine hstep_trans ?_ (hstep_rollDie 20 _)
    exact hstep_updModel_keep _ _ _ (fun _ => rfl) (fun _ => rfl) (fun _ => rfl)
  unfold fightReroll
  dsimp only
  repeat' split
  all_goals first
    | with_reducible exact h3
    | with_reducible exact hstep_trans h3 (hstep_resolveMeleeDamageAndSave _ _ _ _ _)

set_option maxHeartbeats 1000000 in
theorem hstep_fightRolls (g : Game) (aid did : Nat) (free : Bool) (a d : Model) :
    HStep g (fightRolls g aid did free a d).1 := by
  have hsp : HStep g (spendAction ((rollDie 20 g).2) aid "Fight") :=
    hstep_trans (hstep_rollDie 20 g) (hstep_spendAction _ _ _)
  unfold fightRolls
  dsimp only
  repeat' split
  all_goals first
    | with_reducible exact hsp
    | with_reducible exact hstep_rollDie 20 g
    | with_reducible exact hstep_trans hsp (hstep_resolveMeleeDamageAndSave _ _ _ _ _)
    | with_reducible exact hstep_trans (hstep_rollDie 20 g) (hstep_resolveMeleeDamageAndSave _ _ _ _ _)
    | with_reducible exact hstep_trans hsp (hstep_fightReroll _ _ _ _ _ _)
    | with_reducible exact hstep_trans (hstep_rollDie 20 g) (hstep_fightReroll _ _ _ _ _ _)

theorem hstep_resolveFightAttack (g : Game) (aid did : Nat) (free : Bool) :
    HStep g (resolveFightAttack g aid did free).1 := by
  unfold resolveFightAttack
  try dsimp only
  repeat' split
  all_goals first
    | with_reducible exact hstep_fightRolls _ _ _ _ _ _
    | with_reducible exact hstep_rfl g

set_option maxHeartbeats 1000000 in
theorem hstep_moveAttempt (g : Game) (id : Nat) (m : Model) (x y : Int) :
    HStep g (moveAttempt g id m x y).1 := by
  unfold moveAttempt
  dsimp only
  repeat' split
  all_goals first
    | with_reducible exact hstep_trans (hstep_moveModel _ _ _ _) (hstep_spendAction _ _ _)
    | with_reducible exact hstep_rfl g

set_option maxHeartbeats 1000000 in
theorem hstep_resolveMove (g : Game) (id : Nat) (x y : Int) :
    HStep g (resolveMove g id x y).1 := by
  have hfail : ∀ m : Model, HStep g
      (spendAction (gainHorror (horrorTest g m).2 id 1) id "Move") := by
    intro m
    refine hstep_trans (hstep_horrorTest g m) ?_
    exact hstep_trans (hstep_gainHorror _ _ _) (hstep_spendAction _ _ _)
  unfold resolveMove
  try dsimp only
  repeat' split
  all_goals first
    | with_reducible exact hfail _
    | with_reducible exact hstep_trans (hstep_horrorTest g _) (hstep_moveAttempt _ _ _ _ _)
    | with_reducible exact hstep_moveAttempt _ _ _ _ _
    | with_reducible exact hstep_rfl g

set_option maxHeartbeats 1000000 in
theorem hstep_resolveCharge (g : Game) (aid tid : Nat) :
    HStep g (resolveCharge g aid tid).1 := by
  have hmv : ∀ (p : Int × Int), HStep g
      (spendAction (moveModel g aid p.1 p.2) aid "Charge") := fun p =>
    hstep_trans (hstep_moveModel _ _ _ _) (hstep_spendAction _ _ _)
  have hend : ∀ (p : Int × Int) (t : Model), HStep g
      (updModel (gainHorror
          (horrorTest (spendAction (moveModel g aid p.1 p.2) aid "Charge") t).2 tid 1) tid
        (fun t' => { t' with actionPenaltyNext := clamp (t'.actionPenaltyNext + 1) 0 2 })) := by
    intro p t
    refine hstep_trans (hstep_trans (hmv p) (hstep_horrorTest _ t)) ?_
    refine hstep_trans (hstep_gainHorror _ tid 1) ?_
    exact hstep_updModel_keep _ _ _ (fun _ => rfl) (fun _ => rfl) (fun _ => rfl)
  unfold resolveCharge
  try dsimp only
  repeat' split
  all_goals first
    | with_reducible exact hend _ _
    | with_reducible exact hstep_trans (hmv _) (hstep_horrorTest _ _)
    | with_reducible exact hstep_rfl g

theorem hstep_resolveAim (g : Game) (id : Nat) : HStep g (resolveAim g id).1 := by
  have haim : ∀ b : Int, HStep g (updModel (spendAction g id "Aim") id
      (fun m' => { m' with aimBonus := b })) := by
    intro b
    refine hstep_trans (hstep_spendAction g id "Aim") ?_
    exact hstep_updModel_keep _ _ _ (fun _ => rfl) (fun _ => rfl) (fun _ => rfl)
  unfold resolveAim
  try dsimp only
  repeat' split
  all_goals first
    | with_reducible exact haim _
    | with_reducible exact hstep_rfl g

theorem hstep_resolveRecover (g : Game) (id : Nat) :
    HStep g (resolveRecover g id).1 := by
  have hsp : HStep g (updModel (spendAction g id "Recover") id
      (fun m' => { m' with recoveredThisActivation := true })) :=
    hstep_trans (hstep_spendAction _ _ _)
      (hstep_updModel_keep _ _ _ (fun _ => rfl) (fun _ => rfl) (fun _ => rfl))
  have hdec : HStep g (updModel (updModel (spendAction g id "Recover") id
      (fun m' => { m' with recoveredThisActivation := true })) id
      (fun m' => { m' with horror := max 0 (m'.horror - 1) })) := by
    refine hstep_trans hsp ?_
    exact hstep_updModel_dec _ _ _ (fun _ => rfl)
      (fun m => by dsimp only; omega) (fun _ => rfl)
  have hsupp : HStep g (updModel (updModel (spendAction g id "Recover") id
      (fun m' => { m' with recoveredThisActivation := true })) id
      (fun m' => { m' with suppressed := false })) := by
    refine hstep_trans hsp ?_
    exact hstep_updModel_keep _ _ _ (fun _ => rfl) (fun _ => rfl) (fun _ => rfl)
  unfold resolveRecover
  try dsimp only
  repeat' split
  all_goals first
    | with_reducible exact hdec
    | with_reducible exact hsupp
    | with_reducible exact hsp
    | with_reducible exact hstep_rfl g

set_option maxHeartbeats 1000000 in
theorem hstep_resolveDisengage (g : Game) (id : Nat) (x y : Int) :
    HStep g (resolveDisengage g id x y).1 := by
  have hdise : ∀ (a2 d2 : Nat), HStep g (spendAction
      (moveModel (resolveFightAttack g a2 d2 true).1 id x y) id "Disengage") := by
    intro a2 d2
    refine hstep_trans (hstep_resolveFightAttack g a2 d2 true) ?_
    exact hstep_trans (hstep_moveModel _ _ _ _) (hstep_spendAction _ _ _)
  unfold resolveDisengage
  try dsimp only
  repeat' split
  all_goals first
    | with_reducible exact hdise _ _
    | with_reducible exact hstep_rfl g

theorem hstep_applyAct (g : Game) (a : Act) : HStep g (applyAct g a) := by
  cases a with
  | move id x y => exact hstep_resolveMove g id x y
  | charge aid tid => exact hstep_resolveCharge g aid tid
  | shoot aid did => exact hstep_resolveShoot g aid did
  | fight aid did free => exact hstep_resolveFightAttack g aid did free
  | disengage id x y => exact hstep_resolveDisengage g id x y
  | aim id => exact hstep_resolveAim g id
  | recover id => exact hstep_resolveRecover g id

theorem latch_reset_roundResets (g : Game) :
    ∀ m ∈ (roundResets g).models, m.wounds > 0 → m.horrorGainedThisRound = false := by
  have h1 : ∀ m : Model, (resetLatches m).wounds > 0 →
      (resetLatches m).horrorGainedThisRound = false := by
    intro m
    unfold resetLatches
    split <;> simp_all
  have h2 : ∀ m : Model, (resetExhaustion m).wounds = m.wounds
      ∧ (resetExhaustion m).horrorGainedThisRound = m.horrorGainedThisRound := by
    intro m
    unfold resetExhaustion
    split <;> simp
  unfold roundResets
  dsimp only
  split
  · intro m hm hw
    rcases List.mem_map.mp hm with ⟨m1, hm1, rfl⟩
    rcases List.mem_map.mp hm1 with ⟨m0, _, rfl⟩
    rw [(h2 _).2]
    exact h1 m0 (by rw [← (h2 (resetLatches m0)).1]; exact hw)
  · intro m hm hw
    rcases List.mem_map.mp hm with ⟨m0, _, rfl⟩
    exact h1 m0 hw

theorem startRound_models (g : Game) :
    (startRound g).models = (roundResets g).models := by
  unfold startRound
  dsimp only
  split_ifs <;>
    simp only [rollDie_models, rngNext_models, randLtTenths]

/-- C8: over any within-round sequence of resolver calls, a model's
horror never exceeds 5, its horror strictly increases at most once (and
not at all if its once-per-round latch is already set), and the latch is
reset (for living models) only by the round-start reset inside
`startRound`. -/
theorem horror_capped_once_per_round (g : Game) (acts : List Act) (id : Nat) :
    (horrorOf g id ≤ 5 → horrorOf (applyActs g acts) id ≤ 5)
    ∧ (0 ≤ horrorOf g id →
        incCount id g acts ≤ (if latchOf g id then 0 else 1))
    ∧ (∀ m ∈ (startRound g).models, m.wounds > 0 → m.horrorGainedThisRound = false) := by
  refine ⟨?_, ?_, ?_⟩
  · induction acts generalizing g with
    | nil => exact fun h => h
    | cons a rest ih =>
      intro h
      exact ih (applyAct g a) (((hstep_applyAct g a) id).2.2.1 h)
  · induction acts generalizing g with
    | nil =>
      intro _
      unfold incCount
      split <;> omega
    | cons a rest ih =>
      intro h0
      obtain ⟨hl, hi, _, hn⟩ := (hstep_applyAct g a) id
      have hrest := ih (applyAct g a) (hn h0)
      unfold incCount
      by_cases hlg : latchOf g id = true
      · rw [if_pos hlg]
        have hnoinc : ¬ horrorOf g id < horrorOf (applyAct g a) id := by
          intro hc
          have := (hi h0 hc).1
          rw [hlg] at this
          cases this
        rw [if_neg hnoinc]
        have hlat : latchOf (applyAct g a) id = true := hl hlg
        rw [hlat] at hrest
        simpa using hrest
      · rw [if_neg hlg]
        by_cases hinc : horrorOf g id < horrorOf (applyAct g a) id
        · rw [if_pos hinc]
          have hlat : latchOf (applyAct g a) id = true := (hi h0 hinc).2
          rw [hlat] at hrest
          simp at hrest
          omega
        · rw [if_neg hinc]
          split at hrest <;> omega
  · rw [startRound_models]
    exact latch_reset_roundResets g

/-- Witness for C8 on a concrete one-action sequence. -/
theorem horror_capped_once_per_round_witness :
    (horrorOf gInit 1 ≤ 5
      ∧ horrorOf (applyActs gInit [Act.recover 1]) 1 ≤ 5)
    ∧ (0 ≤ horrorOf gInit 1
      ∧ incCount 1 gInit [Act.recover 1] ≤ (if latchOf gInit 1 then 0 else 1)) :=
  ⟨⟨by decide, (horror_capped_once_per_round gInit [Act.recover 1] 1).1 (by decide)⟩,
    ⟨by decide, (horror_capped_once_per_round gInit [Act.recover 1] 1).2.1 (by decide)⟩⟩

/-! ### C9: generator point cap and the missing fallback -/

theorem buildAttempt_cap (tables : Tables) (role : String) (cap : Int)
    (s : List Nat) (r : BuildResult) (s2 : List Nat)
    (h : buildAttempt tables role cap s = (some r, s2)) : r.points ≤ cap := by
  unfold buildAttempt at h
  dsimp only at h
  repeat' split at h
  all_goals simp only [Prod.mk.injEq, Option.some.injEq] at h
  all_goals try exact Option.noConfusion h.1
  all_goals rw [← h.1]
  all_goals dsimp only
  all_goals omega

set_option maxHeartbeats 1000000 in
theorem tryBuildLoop_cap (tables : Tables) (role : String) (cap : Int) :
    ∀ (n : Nat) (s : List Nat) (r : BuildResult) (s2 : List Nat),
      tryBuildLoop tables role cap n s = (some r, s2) → r.points ≤ cap := by
  intro n
  induction n with
  | zero =>
    intro s r s2 h
    injection h with h1 h2
    exact Option.noConfusion h1
  | succ n ih =>
    intro s r s2 h
    unfold tryBuildLoop at h
    cases hb : buildAttempt tables role cap s with
    | mk ob sb =>
      rw [hb] at h
      cases ob with
      | some r0 =>
        dsimp only at h
        injection h with h1 h2
        injection h1 with h3
        subst h3
        exact buildAttempt_cap tables role cap s r0 sb hb
      | none =>
        dsimp only at h
        exact ih sb r s2 h

/-- C9: any model the generator's attempt loop returns respects the point
cap — if `tryBuildModel` yields a build, its recorded point total (stat
tiers plus weapons plus accessories plus psychic powers plus mutations)
is at most the cap. -/
theorem tryBuildModel_cap (tables : Tables) (role : String) (cap : Int)
    (s : List Nat) (r : BuildResult) (s2 : List Nat)
    (h : tryBuildModel tables role cap s = (some r, s2)) : r.points ≤ cap :=
  tryBuildLoop_cap tables role cap 400 s r s2 h

/-- Witness for C9 at a concrete rule table and random stream. -/
theorem tryBuildModel_cap_witness :
    tryBuildModel TW "Leader" 20 [] = (some twr, twOut.2) ∧ twr.points ≤ 20 :=
  ⟨by decide, tryBuildModel_cap TW "Leader" 20 [] twr twOut.2 (by decide)⟩

/-- C9 counterexample: with a rule table whose only ranged weapon costs
100 points, every leader attempt exceeds the 20-point cap and
`randomWarband` returns the thrown error — no all-tier-1 fallback model
exists in this engine. -/
theorem randomWarband_no_fallback :
    (randomWarband TX Team.blue []).1
      = Except.error "Could not build a leader within 20 points after many attempts." := by
  rfl

end Chimera
